import Mathlib

/-! GNU Gatekeeper: the Lua policy bridge (lua.cxx)

A shallow embedding of `lua.cxx`: the `LuaBase` helpers (InitLua, ShutdownLua, RunLua,
SetString, GetString) and the adapters built on them (routing, registration and call
authentication, password lookup, accounting).

The Lua interpreter is a library linked from outside the repository.  Its C API is modelled
by its documented behaviour on a state made of a table of globals and a value stack; what a
script does when it is compiled and called is a parameter (`LuaVM`), so every theorem holds
for every script behaviour.  `lua_pcall` is taken as a call that returns: the bridge has no
timeout, and an invocation whose script never returns produces no result at all.

Text of the host (`PString`, `const char *`) is modelled by `String`; it is C text, which
holds no NUL character.  A Lua string may hold NUL characters: what the host reads of it
through a `const char *` are the characters before the first NUL (`cstr`).  The table of
globals is a plain table, without metamethods.
-/

namespace GnuGk

/-! ## Lua values and states -/

/-- Smallest `lua_Integer` (64 bits). -/
def LUA_MININTEGER : Int := -9223372036854775808

/-- Largest `lua_Integer` (64 bits). -/
def LUA_MAXINTEGER : Int := 9223372036854775807

/-- The integer subtype of Lua numbers (`lua_Integer`): a 64-bit signed integer. -/
abbrev lua_Integer := { i : Int // LUA_MININTEGER ≤ i ∧ i ≤ LUA_MAXINTEGER }

/-- The float subtype of Lua numbers (`lua_Number`, a double), by its 64-bit pattern. -/
abbrev lua_Number := Fin 18446744073709551616

/-- The values a Lua global or stack slot can hold.  A number is an integer or a float; a
string holds any characters, NUL included; `function` carries the source text of the chunk
`luaL_loadstring` compiled; `table` stands for every remaining kind (tables, userdata,
threads). -/
inductive LuaValue where
  | nil
  | boolean (b : Bool)
  | integer (i : lua_Integer)
  | float (x : lua_Number)
  | string (s : String)
  | function (chunk : String)
  | table
  deriving DecidableEq, Repr

/-- The table of global variables of one interpreter state. -/
abbrev Globals := String → LuaValue

/-- One interpreter state (`lua_State`): its globals and its value stack, top first. -/
structure lua_State where
  globals : Globals
  stack : List LuaValue

/-- How a compiled chunk ended: normally, or with an error value raised. -/
inductive Finished where
  | ok (g : Globals)
  | error (msg : LuaValue) (g : Globals)

/-- Final globals of a finished run. -/
def Finished.globals : Finished → Globals
  | .ok g => g
  | .error _ g => g

/-- The part of the Lua library that only the library decides: what `luaL_openlibs`
installs, whether a source text compiles (`none`) or is refused with a message, what
calling the compiled chunk does to the globals, whether the stack can grow, and the text
the library prints for a float (`lua_Number2str`, the "%.14g" conversion of the C library,
which is floating point and not modelled). -/
structure LuaVM where
  lua_number2str : lua_Number → String
  luaL_openlibs : Globals → Globals
  compile : String → Option String
  exec : String → Globals → Finished
  lua_checkstack : lua_State → Nat → Bool

/-- Pushes a copy of the text on the stack. -/
def lua_pushstring (L : lua_State) (s : String) : lua_State :=
  { L with stack := LuaValue.string s :: L.stack }

/-- Pops the top of the stack and stores it in the named global. -/
def lua_setglobal (L : lua_State) (name : String) : lua_State :=
  match L.stack with
  | [] => L
  | v :: rest => { globals := fun k => if k = name then v else L.globals k, stack := rest }

/-- Pushes the value of the named global (nil when it was never set). -/
def lua_getglobal (L : lua_State) (name : String) : lua_State :=
  { L with stack := L.globals name :: L.stack }

/-- The call `lua_tostring(L, -1)`: a pointer to the characters of the value on top of the
stack.  A string gives its characters; a number is converted to a string, an integer to
its decimal text and a float to the text the library prints for it, and the stack slot
itself is converted; every other value gives NULL. -/
def lua_tostring (vm : LuaVM) (L : lua_State) : Option String × lua_State :=
  match L.stack with
  | LuaValue.string s :: _ => (some s, L)
  | LuaValue.integer i :: rest =>
      (some (toString i.val), { L with stack := LuaValue.string (toString i.val) :: rest })
  | LuaValue.float x :: rest =>
      (some (vm.lua_number2str x),
        { L with stack := LuaValue.string (vm.lua_number2str x) :: rest })
  | _ => (none, L)

/-- Pops `n` values. -/
def lua_pop (L : lua_State) (n : Nat) : lua_State :=
  { L with stack := L.stack.drop n }

/-- Code `LUA_ERRRUN`. -/
def LUA_ERRRUN : Nat := 2

/-- Code `LUA_ERRSYNTAX`. -/
def LUA_ERRSYNTAX : Nat := 3

/-- Compiles the text and pushes the chunk as a function; on a compile error pushes the
message and returns a non-zero code. -/
def luaL_loadstring (vm : LuaVM) (L : lua_State) (s : String) : Nat × lua_State :=
  match vm.compile s with
  | none => (0, { L with stack := LuaValue.function s :: L.stack })
  | some msg => (LUA_ERRSYNTAX, { L with stack := LuaValue.string msg :: L.stack })

/-- The call `lua_pcall(L, 0, 0, 0)`: pops the function on top of the stack and calls it in
protected mode with no arguments and no results; on an error pushes the error value and
returns a non-zero code. -/
def lua_pcall (vm : LuaVM) (L : lua_State) : Nat × lua_State :=
  match L.stack with
  | LuaValue.function chunk :: rest =>
      match vm.exec chunk L.globals with
      | Finished.ok g => (0, { globals := g, stack := rest })
      | Finished.error msg g => (LUA_ERRRUN, { globals := g, stack := msg :: rest })
  | _ :: rest =>
      (LUA_ERRRUN, { L with stack := LuaValue.string "attempt to call a non-function value" :: rest })
  | [] => (LUA_ERRRUN, { L with stack := [LuaValue.string "attempt to call a nil value"] })

/-! ## Outcomes, and the calls an invocation makes -/

/-- Result of running host code: `fault` is a dereference of a NULL `lua_State *` inside the
Lua library (undefined behaviour, a crash), `done` is a normal return. -/
inductive Outcome (α : Type) where
  | fault
  | done (a : α)
  deriving DecidableEq, Repr

/-- Sequencing of host code: a fault ends the invocation. -/
def Outcome.bind {α β : Type} (x : Outcome α) (f : α → Outcome β) : Outcome β :=
  match x with
  | .fault => .fault
  | .done a => f a

instance : Monad Outcome where
  pure := Outcome.done
  bind := Outcome.bind

/-- The interpreter-library calls whose number and order the specification speaks about. -/
inductive LuaCall where
  | newstate
  | close
  | setglobal (name value : String)
  | run (script : String)
  deriving DecidableEq, Repr

/-- What an entry point holds while it runs: its local variable `lua` (`none` is NULL) and
the record of the library calls made so far, oldest first. -/
structure Host where
  lua : Option lua_State
  calls : List LuaCall

/-- State of an entry point on entry: `lua_State * lua = NULL`, nothing called yet. -/
def Host.entry : Host := { lua := none, calls := [] }

/-! ## LuaBase -/

/-- Name `LUA_GNUGKLIBNAME`. -/
def LUA_GNUGKLIBNAME : String := "gnugk"

/-- `LuaBase::InitLua(&lua)`.  `fresh` is what `luaL_newstate()` returns in this invocation
(`none` is NULL, out of memory).  The library calls after it dereference the handle. -/
def LuaBase.InitLua (vm : LuaVM) (fresh : Option lua_State) (h : Host) : Outcome Host :=
  match h.lua with
  | some _ => .done h
  | none =>
      match fresh with
      | none => .fault
      | some L =>
          let L1 : lua_State := { L with globals := vm.luaL_openlibs L.globals }
          let L2 : lua_State := { L1 with stack := LuaValue.table :: L1.stack }
          .done { lua := some (lua_setglobal L2 LUA_GNUGKLIBNAME), calls := h.calls ++ [LuaCall.newstate] }

/-- `LuaBase::ShutdownLua(&lua)`. -/
def LuaBase.ShutdownLua (h : Host) : Host :=
  match h.lua with
  | some _ => { lua := none, calls := h.calls ++ [LuaCall.close] }
  | none => h

/-- `LuaBase::RunLua(lua, script)`. -/
def LuaBase.RunLua (vm : LuaVM) (h : Host) (script : String) : Outcome (Bool × Host) :=
  match h.lua with
  | none => .fault
  | some L =>
      let calls := h.calls ++ [LuaCall.run script]
      let loaded := luaL_loadstring vm L script
      if loaded.1 ≠ 0 then
        .done (false, { lua := some (lua_pop loaded.2 1), calls := calls })
      else
        let called := lua_pcall vm loaded.2
        if called.1 ≠ 0 then
          .done (false, { lua := some (lua_pop called.2 1), calls := calls })
        else
          .done (true, { lua := some called.2, calls := calls })

/-- `LuaBase::SetString(lua, name, value)`. -/
def LuaBase.SetString (h : Host) (name value : String) : Outcome Host :=
  match h.lua with
  | none => .fault
  | some L =>
      .done { lua := some (lua_setglobal (lua_pushstring L value) name),
              calls := h.calls ++ [LuaCall.setglobal name value] }

/-- The NUL character, which ends C text. -/
def NUL : Char := Char.ofNat 0

/-- The C text at a `const char *` that points to the given characters: the characters
before the first NUL. -/
def cstr (s : String) : String := String.mk (s.data.takeWhile fun c => c != NUL)

/-- The constructor `PString(const char *)`: the C text at the pointer, the empty text for
a NULL pointer. -/
def PString_ofCStr (p : Option String) : String :=
  match p with
  | none => ""
  | some s => cstr s

/-- `LuaBase::GetString(lua, name)`; the `PString` is built from the `const char *` that
`lua_tostring` returns. -/
def LuaBase.GetString (vm : LuaVM) (h : Host) (name : String) : Outcome (String × Host) :=
  match h.lua with
  | none => .fault
  | some L =>
      let L1 := lua_getglobal L name
      let r := lua_tostring vm L1
      let L2 := lua_pop r.2 1
      .done (PString_ofCStr r.1, { h with lua := some L2 })

/-- The call `lua_checkstack(lua, n)` on the handle of the entry point. -/
def checkstack (vm : LuaVM) (h : Host) (n : Nat) : Outcome Bool :=
  match h.lua with
  | none => .fault
  | some L => .done (vm.lua_checkstack L n)

/-! ## Text helpers (PTLib `PString`, C library) -/

/-- `PString::IsEmpty`. -/
def IsEmpty (s : String) : Bool := decide (s = "")

/-- `PString::ToUpper`: every character through `toupper` (ASCII letters a-z become A-Z). -/
def ToUpper (s : String) : String := String.mk (s.data.map Char.toUpper)

/-- C `isspace` in the "C" locale: space, and the controls from tab to carriage return. -/
def isspace (c : Char) : Bool := c = ' ' || (9 ≤ c.toNat && c.toNat ≤ 13)

/-- Value of the leading run of decimal digits, continuing from `acc`. -/
def digitsValue : Nat → List Char → Nat
  | acc, [] => acc
  | acc, c :: cs => if c.isDigit then digitsValue (acc * 10 + (c.toNat - 48)) cs else acc

/-- Largest `long` (64-bit). -/
def LONG_MAX : Int := 9223372036854775807

/-- Smallest `long` (64-bit). -/
def LONG_MIN : Int := -9223372036854775808

/-- C `strtol(s, &end, 10)`: skips white space, reads an optional sign and the leading
digits, gives 0 when there are none, and saturates at the ends of `long`. -/
def strtol (s : List Char) : Int :=
  match s.dropWhile isspace with
  | '-' :: r => max LONG_MIN (-(digitsValue 0 r : Int))
  | '+' :: r => min LONG_MAX (digitsValue 0 r : Int)
  | r => min LONG_MAX (digitsValue 0 r : Int)

/-- `PString::AsInteger()`: `strtol` of the text in base 10. -/
def AsInteger (s : String) : Int := strtol s.data

/-- `PString::Replace(target, subs, true)` for a one-character target and a one-character
substitute: every occurrence is replaced, every other character is kept. -/
def Replace (s : String) (target subs : Char) : String :=
  String.mk (s.data.map fun c => if c = target then subs else c)

/-! ## LuaAuth -/

/-- `GkAuthenticator::Status`, by the three values the source returns. -/
inductive AuthStatus where
  | e_ok
  | e_fail
  | e_next
  deriving DecidableEq, Repr

open AuthStatus in
/-- `LuaAuth::doRegistrationCheck`; `m_registrationScript` is the member it runs. -/
def LuaAuth.doRegistrationCheck (vm : LuaVM) (fresh : Option lua_State)
    (m_registrationScript : String)
    (username callingStationId callerIP aliases vendor messageType message : String) :
    Outcome (AuthStatus × Host) := do
  let h ← LuaBase.InitLua vm fresh Host.entry
  if h.lua.isNone || IsEmpty m_registrationScript then
    return (e_fail, LuaBase.ShutdownLua h)
  else
    let h ← LuaBase.SetString h "username" username
    let h ← LuaBase.SetString h "callingStationId" callingStationId
    let h ← LuaBase.SetString h "callerIP" callerIP
    let h ← LuaBase.SetString h "aliases" aliases
    let h ← LuaBase.SetString h "vendor" vendor
    let h ← LuaBase.SetString h "messageType" messageType
    let h ← LuaBase.SetString h "message" message
    let h ← LuaBase.SetString h "result" "FAIL"
    let ran ← LuaBase.RunLua vm h m_registrationScript
    if !ran.1 then
      return (e_fail, LuaBase.ShutdownLua ran.2)
    else
      let got ← LuaBase.GetString vm ran.2 "result"
      let resultCode :=
        if ToUpper got.1 = "OK" then e_ok
        else if ToUpper got.1 = "NEXT" then e_next
        else e_fail
      return (resultCode, LuaBase.ShutdownLua got.2)

open AuthStatus in
/-- `LuaAuth::doCallCheck`; `m_callScript` is the member it runs. -/
def LuaAuth.doCallCheck (vm : LuaVM) (fresh : Option lua_State) (m_callScript : String)
    (messageType message source calledAlias calledIP caller callingStationId callid
      srcinfo vendor : String) :
    Outcome (AuthStatus × Host) := do
  let h ← LuaBase.InitLua vm fresh Host.entry
  if h.lua.isNone || IsEmpty m_callScript then
    return (e_fail, LuaBase.ShutdownLua h)
  else
    let h ← LuaBase.SetString h "messageType" messageType
    let h ← LuaBase.SetString h "message" message
    let h ← LuaBase.SetString h "source" source
    let h ← LuaBase.SetString h "calledAlias" calledAlias
    let h ← LuaBase.SetString h "calledIP" calledIP
    let h ← LuaBase.SetString h "caller" caller
    let h ← LuaBase.SetString h "callingStationId" callingStationId
    let h ← LuaBase.SetString h "callid" callid
    let h ← LuaBase.SetString h "srcInfo" srcinfo
    let h ← LuaBase.SetString h "vendor" vendor
    let h ← LuaBase.SetString h "result" "FAIL"
    let ran ← LuaBase.RunLua vm h m_callScript
    if !ran.1 then
      return (e_fail, LuaBase.ShutdownLua ran.2)
    else
      let got ← LuaBase.GetString vm ran.2 "result"
      let resultCode :=
        if ToUpper got.1 = "OK" then e_ok
        else if ToUpper got.1 = "NEXT" then e_next
        else e_fail
      return (resultCode, LuaBase.ShutdownLua got.2)

/-! ## LuaPasswordAuth -/

/-- `LuaPasswordAuth::GetPassword`; `m_script` is the member it runs, `gkName` is
`Toolkit::GKName()`, `password` is the caller's variable passed by reference.  Returns the
boolean result and the caller's variable afterwards. -/
def LuaPasswordAuth.GetPassword (vm : LuaVM) (fresh : Option lua_State) (m_script : String)
    (gkName : String) (alias_ : String) (password : String) :
    Outcome ((Bool × String) × Host) := do
  let h ← LuaBase.InitLua vm fresh Host.entry
  if h.lua.isNone || IsEmpty m_script then
    return ((false, password), LuaBase.ShutdownLua h)
  else
    let h ← LuaBase.SetString h "alias" alias_
    let h ← LuaBase.SetString h "gk" gkName
    let h ← LuaBase.SetString h "password" ""
    let ran ← LuaBase.RunLua vm h m_script
    if !ran.1 then
      return ((false, password), LuaBase.ShutdownLua ran.2)
    else
      let got ← LuaBase.GetString vm ran.2 "password"
      return ((true, got.1), LuaBase.ShutdownLua got.2)

/-! ## Routing::LuaPolicy -/

/-- Constant `GK_DEF_ENDPOINT_SIGNAL_PORT` of gk_const.h, the well known signal port. -/
def GK_DEF_ENDPOINT_SIGNAL_PORT : Nat := 1720

/-- A signalling address: the IP address (its bytes) and the port. -/
structure H225_TransportAddress where
  ip : List Nat
  port : Nat
  deriving DecidableEq, Repr

/-- An alias address, by its text. -/
structure H225_AliasAddress where
  text : String
  deriving DecidableEq, Repr

/-- `H323SetAliasAddress(text, alias)`: the alias made of the text. -/
def H323SetAliasAddress (text : String) : H225_AliasAddress := { text := text }

/-- Modelled from the spec: `SocketToH225TransportAddr(ip, port)` (declared outside src/),
"address resolved from destIP": the address made of the resolved host and the port. -/
def SocketToH225TransportAddr (ip : List Nat) (port : Nat) : H225_TransportAddress :=
  { ip := ip, port := port }

/-- Modelled from the spec: the route candidate (`Route` of Routing.h, which is not under
src/): the policy that made it, the resolved address, the endpoint found for that address
(an identifier, `none` when there is none) and the destination alias. -/
structure Route where
  m_policy : String
  m_destAddr : H225_TransportAddress
  m_destEndpoint : Option Nat
  m_destNumber : String
  deriving DecidableEq, Repr

/-- Modelled from the spec: the constructor `Route(policy, address)` of Routing.h. -/
def Route.new (policy : String) (addr : H225_TransportAddress) : Route :=
  { m_policy := policy, m_destAddr := addr, m_destEndpoint := none, m_destNumber := "" }

/-- Modelled from the spec: the destination a routing policy works on (`DestinationRoutes`
of Routing.h, which is not under src/): the route candidates in the order they were added,
the reject mark with its reason, and the new aliases once a policy has set them. -/
structure DestinationRoutes where
  m_routes : List Route
  m_rejectCall : Bool
  m_rejectReason : Int
  m_newAliases : Option (List H225_AliasAddress)
  deriving DecidableEq, Repr

/-- Modelled from the spec: `DestinationRoutes::SetRejectCall`, "reject the call". -/
def DestinationRoutes.SetRejectCall (d : DestinationRoutes) (reject : Bool) : DestinationRoutes :=
  { d with m_rejectCall := reject }

/-- Modelled from the spec: `DestinationRoutes::SetRejectReason`, "use it as the reject
reason". -/
def DestinationRoutes.SetRejectReason (d : DestinationRoutes) (reason : Int) : DestinationRoutes :=
  { d with m_rejectReason := reason }

/-- Modelled from the spec: `DestinationRoutes::SetNewAliases`. -/
def DestinationRoutes.SetNewAliases (d : DestinationRoutes) (aliases : List H225_AliasAddress) :
    DestinationRoutes :=
  { d with m_newAliases := some aliases }

/-- Modelled from the spec: `DestinationRoutes::AddRoute`, "register one route candidate". -/
def DestinationRoutes.AddRoute (d : DestinationRoutes) (route : Route) : DestinationRoutes :=
  { d with m_routes := d.m_routes ++ [route] }

/-- Modelled from the spec: `SplitIPAndPort(str, default_port)` (declared outside src/),
"host:port, default port = well-known signaling port": the text before the first colon
and the text after it, or the whole text and the default port when there is no colon. -/
def SplitIPAndPort (str : String) (default_port : Nat) : String × String :=
  match str.data.span (fun c => c != ':') with
  | (host, []) => (String.mk host, toString default_port)
  | (host, _ :: port) => (String.mk host, String.mk port)

/-- The cast `(WORD)` of a `long`: its low 16 bits. -/
def WORD (n : Int) : Nat := (n % 65536).toNat

/-- What the routing policy asks of the rest of the gatekeeper: the address a host text
denotes (`PIPSocket::Address`) and the registered endpoint at a signalling address
(`RegistrationTable::FindBySignalAdr`). -/
structure RoutingHost where
  PIPSocket_Address : String → List Nat
  FindBySignalAdr : H225_TransportAddress → Option Nat

/-- `Routing::LuaPolicy::RunPolicy`; `m_script` is the member it runs, `destination` is the
in-out argument, returned as it is left. -/
def Routing.LuaPolicy.RunPolicy (vm : LuaVM) (env : RoutingHost) (fresh : Option lua_State)
    (m_script : String)
    (source calledAlias calledIP caller callingStationId callid messageType clientauthid
      language : String)
    (destination : DestinationRoutes) : Outcome (DestinationRoutes × Host) := do
  let h ← LuaBase.InitLua vm fresh Host.entry
  let h ← LuaBase.SetString h "source" source
  let h ← LuaBase.SetString h "calledAlias" calledAlias
  let h ← LuaBase.SetString h "calledIP" calledIP
  let h ← LuaBase.SetString h "caller" caller
  let h ← LuaBase.SetString h "callingStationId" callingStationId
  let h ← LuaBase.SetString h "callid" callid
  let h ← LuaBase.SetString h "messageType" messageType
  let h ← LuaBase.SetString h "clientauthid" clientauthid
  let h ← LuaBase.SetString h "language" language
  let h ← LuaBase.SetString h "destAlias" ""
  let h ← LuaBase.SetString h "destIP" ""
  let h ← LuaBase.SetString h "action" ""
  let h ← LuaBase.SetString h "rejectCode" ""
  let ran ← LuaBase.RunLua vm h m_script
  if !ran.1 then
    return (destination, LuaBase.ShutdownLua ran.2)
  else
    let action ← LuaBase.GetString vm ran.2 "action"
    let rejectCode ← LuaBase.GetString vm action.2 "rejectCode"
    let destAlias ← LuaBase.GetString vm rejectCode.2 "destAlias"
    let destIP ← LuaBase.GetString vm destAlias.2 "destIP"
    if ToUpper action.1 = "SKIP" then
      return (destination, LuaBase.ShutdownLua destIP.2)
    else if ToUpper action.1 = "REJECT" then
      let destination := destination.SetRejectCall true
      let destination :=
        if !IsEmpty rejectCode.1 then destination.SetRejectReason (AsInteger rejectCode.1)
        else destination
      return (destination, LuaBase.ShutdownLua destIP.2)
    else
      let destination :=
        if !IsEmpty destAlias.1 then
          destination.SetNewAliases [H323SetAliasAddress destAlias.1]
        else destination
      let destination :=
        if !IsEmpty destIP.1 then
          let adr_parts := SplitIPAndPort destIP.1 GK_DEF_ENDPOINT_SIGNAL_PORT
          let ip := env.PIPSocket_Address adr_parts.1
          let port := WORD (AsInteger adr_parts.2)
          let route := Route.new "Lua" (SocketToH225TransportAddr ip port)
          let route := { route with m_destEndpoint := env.FindBySignalAdr route.m_destAddr }
          let route := if !IsEmpty destAlias.1 then { route with m_destNumber := destAlias.1 } else route
          destination.AddRoute route
        else destination
      return (destination, LuaBase.ShutdownLua destIP.2)

/-! ## LuaAcct -/

/-- `GkAcctLogger::Status`, by the three values the source returns. -/
inductive AcctStatus where
  | Ok
  | Fail
  | Next
  deriving DecidableEq, Repr

/-- What the accounting logger takes from `GkAcctLogger` (gkacct.h, not under src/): the
codes of the accounting events, and the parameter mappings its helpers build, as the list
of the entries of the `std::map` in iteration order.  Calls and endpoints are named by an
identifier, a null `callptr` or `endptr` is `none`. -/
structure AcctHost where
  AcctOn : Int
  AcctOff : Int
  AcctStart : Int
  AcctConnect : Int
  AcctUpdate : Int
  AcctStop : Int
  AcctAlert : Int
  AcctRegister : Int
  AcctUnregister : Int
  SetupAcctParams : List (String × String)
  SetupAcctParamsCall : Option Nat → String → List (String × String)
  SetupAcctEndpointParams : Option Nat → String → List (String × String)

/-- The members of a `LuaAcct` logger: its script, its timestamp format, and the enabled
and supported event masks its base class holds. -/
structure LuaAcct where
  m_script : String
  m_timestampFormat : String
  GetEnabledEvents : Int
  GetSupportedEvents : Int

/-- The loop over the parameter mapping in both `Log` overloads: one `SetString` per entry,
under the name made of "param_" and the key with every '-' replaced by '_'. -/
def LuaAcct.writeParams (h : Host) : List (String × String) → Outcome Host
  | [] => .done h
  | kv :: rest =>
      (LuaBase.SetString h (Replace ("param_" ++ kv.1) '-' '_') kv.2).bind fun h1 =>
        LuaAcct.writeParams h1 rest

/-- The `switch(evt)` of `Log(evt, call)` that names the event. -/
def LuaAcct.callEventName (env : AcctHost) (evt : Int) : String :=
  if evt = env.AcctOn then "On"
  else if evt = env.AcctOff then "Off"
  else if evt = env.AcctStart then "Start"
  else if evt = env.AcctConnect then "Connect"
  else if evt = env.AcctUpdate then "Update"
  else if evt = env.AcctStop then "Stop"
  else if evt = env.AcctAlert then "Alert"
  else "Unknown"

/-- The `switch(evt)` of `Log(evt, ep)` that names the event. -/
def LuaAcct.epEventName (env : AcctHost) (evt : Int) : String :=
  if evt = env.AcctRegister then "Register"
  else if evt = env.AcctUnregister then "Unregister"
  else "Unknown"

/-- The parameter mapping `Log(evt, call)` fills: without the call for the On and Off
events, from the call for every other event. -/
def LuaAcct.callParams (env : AcctHost) (self : LuaAcct) (evt : Int) (call : Option Nat) :
    List (String × String) :=
  if evt = env.AcctOn || evt = env.AcctOff then env.SetupAcctParams
  else env.SetupAcctParamsCall call self.m_timestampFormat

open AcctStatus in
/-- `LuaAcct::Log(AcctEvent evt, const callptr & call)`; a null `call` is `none`, and
`evt & GetEnabledEvents() & GetSupportedEvents()` is the bitwise and of three ints. -/
def LuaAcct.Log (vm : LuaVM) (env : AcctHost) (fresh : Option lua_State) (self : LuaAcct)
    (evt : Int) (call : Option Nat) : Outcome (AcctStatus × Host) :=
  if Int.land (Int.land evt self.GetEnabledEvents) self.GetSupportedEvents = 0 then
    .done (Next, Host.entry)
  else do
    let h ← LuaBase.InitLua vm fresh Host.entry
    if h.lua.isNone || IsEmpty self.m_script then
      return (Fail, LuaBase.ShutdownLua h)
    else if call.isNone && evt != env.AcctOn && evt != env.AcctOff then
      return (Fail, LuaBase.ShutdownLua h)
    else
      let eventName := LuaAcct.callEventName env evt
      let params := LuaAcct.callParams env self evt call
      let h ← LuaBase.SetString h "event" eventName
      let h ← LuaBase.SetString h "result" "OK"
      let room ← checkstack vm h params.length
      if !room then
        return (Fail, LuaBase.ShutdownLua h)
      else
        let h ← LuaAcct.writeParams h params
        let ran ← LuaBase.RunLua vm h self.m_script
        if !ran.1 then
          return (Fail, LuaBase.ShutdownLua ran.2)
        else
          let got ← LuaBase.GetString vm ran.2 "result"
          let resultCode :=
            if ToUpper got.1 = "OK" then Ok
            else if ToUpper got.1 = "NEXT" then Next
            else Fail
          return (resultCode, LuaBase.ShutdownLua got.2)

open AcctStatus in
/-- `LuaAcct::Log(AcctEvent evt, const endptr & ep)`, the second overload; a null `ep` is
`none`. -/
def LuaAcct.LogEp (vm : LuaVM) (env : AcctHost) (fresh : Option lua_State) (self : LuaAcct)
    (evt : Int) (ep : Option Nat) : Outcome (AcctStatus × Host) :=
  if Int.land (Int.land evt self.GetEnabledEvents) self.GetSupportedEvents = 0 then
    .done (Next, Host.entry)
  else do
    let h ← LuaBase.InitLua vm fresh Host.entry
    if h.lua.isNone || IsEmpty self.m_script then
      return (Fail, LuaBase.ShutdownLua h)
    else if ep.isNone then
      return (Fail, LuaBase.ShutdownLua h)
    else
      let eventName := LuaAcct.epEventName env evt
      let params := env.SetupAcctEndpointParams ep self.m_timestampFormat
      let h ← LuaBase.SetString h "event" eventName
      let h ← LuaBase.SetString h "result" "OK"
      let room ← checkstack vm h params.length
      if !room then
        return (Fail, LuaBase.ShutdownLua h)
      else
        let h ← LuaAcct.writeParams h params
        let ran ← LuaBase.RunLua vm h self.m_script
        if !ran.1 then
          return (Fail, LuaBase.ShutdownLua ran.2)
        else
          let got ← LuaBase.GetString vm ran.2 "result"
          let resultCode :=
            if ToUpper got.1 = "OK" then Ok
            else if ToUpper got.1 = "NEXT" then Next
            else Fail
          return (resultCode, LuaBase.ShutdownLua got.2)

/-! ## Vocabulary of the specification -/

/-- The value an entry point returns, without the record of its library calls. -/
def Outcome.value {α : Type} : Outcome (α × Host) → Outcome α
  | .fault => .fault
  | .done a => .done a.1

/-- The record of library calls an entry point leaves (empty when it faulted). -/
def Outcome.calls {α : Type} : Outcome (α × Host) → List LuaCall
  | .fault => []
  | .done a => a.2.calls

/-- The session `InitLua` makes of the fresh state: the standard libraries and the `gnugk`
table are the globals. -/
def opened (vm : LuaVM) (L : lua_State) : lua_State :=
  { globals := fun k =>
      if k = LUA_GNUGKLIBNAME then LuaValue.table else vm.luaL_openlibs L.globals k,
    stack := L.stack }

/-- The session after one global is given a string value. -/
def assign (L : lua_State) (name value : String) : lua_State :=
  { L with globals := fun k => if k = name then LuaValue.string value else L.globals k }

/-- The session after the listed globals are given their string values, in list order. -/
def assignAll (L : lua_State) : List (String × String) → lua_State
  | [] => L
  | kv :: rest => assignAll (assign L kv.1 kv.2) rest

/-- The `setglobal` calls that write the listed variables, in list order. -/
def writes (kvs : List (String × String)) : List LuaCall :=
  kvs.map fun kv => LuaCall.setglobal kv.1 kv.2

/-- The script finishes successfully: it compiles and its call ends without an error.
Gives the final globals, `none` when the script fails to compile or to run. -/
def finishes (vm : LuaVM) (script : String) (L : lua_State) : Option Globals :=
  match vm.compile script with
  | some _ => none
  | none =>
      match vm.exec script L.globals with
      | Finished.ok g => some g
      | Finished.error _ _ => none

/-- The session `RunLua` leaves. -/
def afterRun (vm : LuaVM) (script : String) (L : lua_State) : lua_State :=
  match vm.compile script with
  | some _ => L
  | none => { globals := (vm.exec script L.globals).globals, stack := L.stack }

/-- The text a variable holds: the characters of a string, the decimal text of an integer,
the text the library prints for a float, and no text for every other value. -/
def textOf (vm : LuaVM) : LuaValue → String
  | LuaValue.string s => s
  | LuaValue.integer i => toString i.val
  | LuaValue.float x => vm.lua_number2str x
  | _ => ""

/-- The text of a variable as the host reads it with `GetString`: the text the variable
holds, up to its first NUL character. -/
def readText (vm : LuaVM) (v : LuaValue) : String := cstr (textOf vm v)

/-- Two characters are the same letter ignoring case: equal, or one is a capital A-Z and
the other is the small letter for it. -/
def sameLetter (c d : Char) : Bool :=
  c == d || (65 ≤ d.toNat && d.toNat ≤ 90 && c.toNat == d.toNat + 32)
    || (65 ≤ c.toNat && c.toNat ≤ 90 && d.toNat == c.toNat + 32)

/-- Two character lists of the same length whose characters agree ignoring case. -/
def sameText : List Char → List Char → Bool
  | [], [] => true
  | c :: cs, d :: ds => sameLetter c d && sameText cs ds
  | _, _ => false

/-- Equality of two texts ignoring letter case. -/
def equalsIgnoringCase (s t : String) : Bool := sameText s.data t.data

/-- No character of the list is a small letter a-z. -/
def noLower (t : List Char) : Bool := t.all fun d => !(97 ≤ d.toNat && d.toNat ≤ 122)

/-- The list begins with a decimal digit. -/
def digitHead : List Char → Prop
  | [] => False
  | c :: _ => ∃ d, d < 10 ∧ c = Nat.digitChar d

/-- The three-way mapping of the `result` variable onto a decision `r`, for a run whose
successful end left the globals `fin` (`none`: the script did not finish successfully):
`ok` exactly when `result`, read up to its first NUL character, equals "OK" ignoring case,
`next` exactly when it so equals "NEXT", `fail` exactly in every other case. -/
def ResultMapping {σ : Type} (vm : LuaVM) (ok next fail : σ) (fin : Option Globals) (r : σ) :
    Prop :=
  (r = ok ↔ ∃ g, fin = some g ∧ equalsIgnoringCase (readText vm (g "result")) "OK" = true)
  ∧ (r = next ↔
      ∃ g, fin = some g ∧ equalsIgnoringCase (readText vm (g "result")) "NEXT" = true)
  ∧ (r = fail ↔ ∀ g, fin = some g →
      equalsIgnoringCase (readText vm (g "result")) "OK" = false
        ∧ equalsIgnoringCase (readText vm (g "result")) "NEXT" = false)

/-- The contract of an authentication check that ran `script` on the session `start` and
returned `r`: the three-way mapping of `result` for a script that is not empty, and
`e_fail` for an empty script, for a script that fails to compile or to run, and for a
script that leaves `result` as it was pre-set, which is "FAIL". -/
def AuthContract (vm : LuaVM) (script : String) (start : lua_State)
    (r : Outcome AuthStatus) : Prop :=
  ResultMapping vm (Outcome.done AuthStatus.e_ok) (Outcome.done AuthStatus.e_next)
      (Outcome.done AuthStatus.e_fail)
      (if script = "" then none else finishes vm script start) r
  ∧ (script = "" → r = Outcome.done AuthStatus.e_fail)
  ∧ (finishes vm script start = none → r = Outcome.done AuthStatus.e_fail)
  ∧ start.globals "result" = LuaValue.string "FAIL"
  ∧ (∀ g, finishes vm script start = some g → g "result" = start.globals "result" →
      r = Outcome.done AuthStatus.e_fail)

/-- The contract of a `Log` overload that ran `script` on the session `start` and returned
`r`: `result` is "OK" when the script starts, the three-way mapping of `result` holds with
`Fail` for every other value and for every compile or runtime error, and a script that
leaves `result` as it was gives `Ok`. -/
def AcctContract (vm : LuaVM) (script : String) (start : lua_State)
    (r : Outcome AcctStatus) : Prop :=
  start.globals "result" = LuaValue.string "OK"
  ∧ ResultMapping vm (Outcome.done AcctStatus.Ok) (Outcome.done AcctStatus.Next)
      (Outcome.done AcctStatus.Fail) (finishes vm script start) r
  ∧ (finishes vm script start = none → r = Outcome.done AcctStatus.Fail)
  ∧ (∀ g, finishes vm script start = some g → g "result" = start.globals "result" →
      r = Outcome.done AcctStatus.Ok)

/-- The variables `doRegistrationCheck` writes before the script runs, in order. -/
def regInputs (username callingStationId callerIP aliases vendor messageType message : String) :
    List (String × String) :=
  [("username", username), ("callingStationId", callingStationId), ("callerIP", callerIP),
   ("aliases", aliases), ("vendor", vendor), ("messageType", messageType),
   ("message", message), ("result", "FAIL")]

/-- The variables `doCallCheck` writes before the script runs, in order. -/
def callInputs (messageType message source calledAlias calledIP caller callingStationId callid
    srcinfo vendor : String) : List (String × String) :=
  [("messageType", messageType), ("message", message), ("source", source),
   ("calledAlias", calledAlias), ("calledIP", calledIP), ("caller", caller),
   ("callingStationId", callingStationId), ("callid", callid), ("srcInfo", srcinfo),
   ("vendor", vendor), ("result", "FAIL")]

/-- The variables `GetPassword` writes before the script runs, in order. -/
def passwordInputs (alias_ gkName : String) : List (String × String) :=
  [("alias", alias_), ("gk", gkName), ("password", "")]

/-- The variables `RunPolicy` writes before the script runs, in order. -/
def routingInputs (source calledAlias calledIP caller callingStationId callid messageType
    clientauthid language : String) : List (String × String) :=
  [("source", source), ("calledAlias", calledAlias), ("calledIP", calledIP),
   ("caller", caller), ("callingStationId", callingStationId), ("callid", callid),
   ("messageType", messageType), ("clientauthid", clientauthid), ("language", language),
   ("destAlias", ""), ("destIP", ""), ("action", ""), ("rejectCode", "")]

/-- The variables the parameter loop writes for a mapping, in order. -/
def paramWrites (params : List (String × String)) : List (String × String) :=
  params.map fun kv => (Replace ("param_" ++ kv.1) '-' '_', kv.2)

/-- The variables a `Log` overload writes before the script runs, in order. -/
def acctInputs (eventName : String) (params : List (String × String)) :
    List (String × String) :=
  [("event", eventName), ("result", "OK")] ++ paramWrites params

/-- The decision of both authentication checks, from the final globals of a successful
run (`none`: no successful run). -/
def authDecision (vm : LuaVM) : Option Globals → AuthStatus
  | none => AuthStatus.e_fail
  | some g =>
      if ToUpper (readText vm (g "result")) = "OK" then AuthStatus.e_ok
      else if ToUpper (readText vm (g "result")) = "NEXT" then AuthStatus.e_next
      else AuthStatus.e_fail

/-- The decision of both `Log` overloads, from the final globals of a successful run. -/
def acctDecision (vm : LuaVM) : Option Globals → AcctStatus
  | none => AcctStatus.Fail
  | some g =>
      if ToUpper (readText vm (g "result")) = "OK" then AcctStatus.Ok
      else if ToUpper (readText vm (g "result")) = "NEXT" then AcctStatus.Next
      else AcctStatus.Fail

/-- The route candidate `RunPolicy` builds from the two output texts. -/
def luaRoute (env : RoutingHost) (destAlias destIP : String) : Route :=
  let adr_parts := SplitIPAndPort destIP GK_DEF_ENDPOINT_SIGNAL_PORT
  let addr :=
    SocketToH225TransportAddr (env.PIPSocket_Address adr_parts.1) (WORD (AsInteger adr_parts.2))
  { m_policy := "Lua", m_destAddr := addr, m_destEndpoint := env.FindBySignalAdr addr,
    m_destNumber := destAlias }

/-- The destination `RunPolicy` leaves, from the final globals of a successful run
(`none`: no successful run). -/
def routeDecision (vm : LuaVM) (env : RoutingHost) (destination : DestinationRoutes) :
    Option Globals → DestinationRoutes
  | none => destination
  | some g =>
      if ToUpper (readText vm (g "action")) = "SKIP" then destination
      else if ToUpper (readText vm (g "action")) = "REJECT" then
        if readText vm (g "rejectCode") = "" then destination.SetRejectCall true
        else (destination.SetRejectCall true).SetRejectReason (AsInteger (readText vm (g "rejectCode")))
      else if readText vm (g "destIP") = "" then
        if readText vm (g "destAlias") = "" then destination
        else destination.SetNewAliases [H323SetAliasAddress (readText vm (g "destAlias"))]
      else if readText vm (g "destAlias") = "" then
        destination.AddRoute (luaRoute env "" (readText vm (g "destIP")))
      else
        (destination.SetNewAliases [H323SetAliasAddress (readText vm (g "destAlias"))]).AddRoute
          (luaRoute env (readText vm (g "destAlias")) (readText vm (g "destIP")))

/-! ## Concrete interpreters and states for the examples -/

/-- A fresh interpreter state: no global is set, the stack is empty. -/
def freshState : lua_State := { globals := fun _ => LuaValue.nil, stack := [] }

/-- The globals after the listed assignments are made on `g`. -/
def scriptedGlobals (sets : List (String × LuaValue)) (g : Globals) : Globals :=
  fun k =>
    match sets.lookup k with
    | some v => v
    | none => g k

/-- An interpreter in which every script compiles and, when called, assigns the listed
globals and ends normally; it prints every float as "0.5". -/
def scriptedVM (sets : List (String × LuaValue)) : LuaVM :=
  { lua_number2str := fun _ => "0.5",
    luaL_openlibs := id,
    compile := fun _ => none,
    exec := fun _ g => Finished.ok (scriptedGlobals sets g),
    lua_checkstack := fun _ _ => true }

/-- An interpreter in which no script compiles. -/
def refusingVM : LuaVM :=
  { lua_number2str := fun _ => "0.5",
    luaL_openlibs := id,
    compile := fun _ => some "syntax error",
    exec := fun _ g => Finished.ok g,
    lua_checkstack := fun _ _ => true }

/-- A routing host that resolves every host text to 10.0.0.2 and knows no endpoint. -/
def plainRoutingHost : RoutingHost :=
  { PIPSocket_Address := fun _ => [10, 0, 0, 2], FindBySignalAdr := fun _ => none }

/-- An accounting host with the event codes 1, 2, 4, ... and small parameter mappings. -/
def sampleAcctHost : AcctHost :=
  { AcctStart := 1, AcctStop := 2, AcctUpdate := 4, AcctOn := 8, AcctOff := 16,
    AcctConnect := 32, AcctAlert := 64, AcctRegister := 128, AcctUnregister := 256,
    SetupAcctParams := [("g", "gk1")],
    SetupAcctParamsCall := fun _ _ => [("call-id", "c1"), ("g", "gk1")],
    SetupAcctEndpointParams := fun _ _ => [("endpoint-ip", "10.0.0.9")] }

/-- A logger with a script, enabled for the events Start and Stop, supporting all nine. -/
def sampleLogger : LuaAcct :=
  { m_script := "result = 'next'", m_timestampFormat := "", GetEnabledEvents := 3,
    GetSupportedEvents := 511 }

/-- A destination on which no policy has acted yet. -/
def emptyDestination : DestinationRoutes :=
  { m_routes := [], m_rejectCall := false, m_rejectReason := 0, m_newAliases := none }

/-- The assignments of a script that skips while it also names a destination. -/
def skipScript : List (String × LuaValue) :=
  [("action", LuaValue.string "Skip"), ("destAlias", LuaValue.string "200"),
   ("destIP", LuaValue.string "10.0.0.2:1720"), ("rejectCode", LuaValue.string "5")]

/-- The assignments of a script that rejects with a code one above the largest `long`. -/
def rejectBigScript : List (String × LuaValue) :=
  [("action", LuaValue.string "REJECT"), ("rejectCode", LuaValue.string "9223372036854775808")]

/-- The assignments of a script that rejects with the code 123 and names a destination. -/
def reject123Script : List (String × LuaValue) :=
  [("action", LuaValue.string "Reject"), ("rejectCode", LuaValue.string "123"),
   ("destAlias", LuaValue.string "200"), ("destIP", LuaValue.string "10.0.0.2:1720")]

/-- The assignments of a script that names alias 200 at 10.0.0.2:1720. -/
def routeScript : List (String × LuaValue) :=
  [("destAlias", LuaValue.string "200"), ("destIP", LuaValue.string "10.0.0.2:1720")]

/-- The assignments of a script that names only the alias 200. -/
def aliasOnlyScript : List (String × LuaValue) :=
  [("destAlias", LuaValue.string "200")]

/-- The assignments of a script that rejects with the code "abc". -/
def rejectAbcScript : List (String × LuaValue) :=
  [("action", LuaValue.string "REJECT"), ("rejectCode", LuaValue.string "abc")]

/-- The assignments of a script that rejects with the code "12abc". -/
def reject12abcScript : List (String × LuaValue) :=
  [("action", LuaValue.string "REJECT"), ("rejectCode", LuaValue.string "12abc")]

/-- The assignments of a script that rejects and gives no code. -/
def rejectPlainScript : List (String × LuaValue) :=
  [("action", LuaValue.string "reject")]

/-- A destination that carries the reject reason 5 and is not rejected. -/
def reasonFiveDestination : DestinationRoutes :=
  { m_routes := [], m_rejectCall := false, m_rejectReason := 5, m_newAliases := none }

/-! ## Script source resolution (the constructors and `LoadConfig`) -/

/-- What script resolution asks of the host: `GkConfig()->GetString(section, key, default)`,
the file a path names (`none` when it cannot be opened for reading, otherwise its
characters), and the two points of `PTextFile::ReadLine` that lua.cxx does not fix and
that PTLib, a library outside the repository, decides: whether a carriage return at the
end of the line read is dropped, and whether the characters after the last line feed are
returned as a last line. -/
structure ConfigHost where
  GetString : String → String → String → String
  PTextFile : String → Option String
  ReadLine_dropsCR : Bool
  ReadLine_returnsLast : Bool

/-- A line without the carriage return it may end in. -/
def stripCR (line : List Char) : List Char :=
  if line.getLast? = some '\r' then line.dropLast else line

/-- The `PString` that `PTextFile::ReadLine` makes of the characters it read up to the line
feed or the end of the file: where the implementation drops it, a carriage return at their
end is dropped, and the text ends at a NUL character. -/
def lineText (dropsCR : Bool) (cur : List Char) : String :=
  cstr (String.mk (if dropsCR then stripCR cur else cur))

/-- The lines that `PTextFile::ReadLine` returns when it is called until it fails, from the
characters `cur` of the line being read and the characters still unread.  A call reads up
to the next line feed, which it consumes, and returns the line; at the end of the file it
fails, unless the implementation returns the characters after the last line feed and there
are some. -/
def readLinesFrom (dropsCR returnsLast : Bool) (cur : List Char) : List Char → List String
  | [] =>
      if returnsLast && !(lineText dropsCR cur == "") then [lineText dropsCR cur] else []
  | c :: rest =>
      if c = '\n' then lineText dropsCR cur :: readLinesFrom dropsCR returnsLast [] rest
      else readLinesFrom dropsCR returnsLast (cur ++ [c]) rest

/-- The lines `ReadLine` returns for a file, from its first character on. -/
def fileLines (cfg : ConfigHost) (content : String) : List String :=
  readLinesFrom cfg.ReadLine_dropsCR cfg.ReadLine_returnsLast [] content.data

/-- The loop `while (f.ReadLine(line)) m_script += (line + "\n")`, from the script built so
far and the lines still to be read. -/
def readLines (m_script : String) : List String → String
  | [] => m_script
  | line :: rest => readLines (m_script ++ (line ++ "\n")) rest

/-- The block the five sites share: the inline setting `key`, and when it is empty the file
named by the setting `fileKey`, read line by line when that name is not empty and the file
opens. -/
def resolveScript (cfg : ConfigHost) (section_ key fileKey : String) : String :=
  let m_script := cfg.GetString section_ key ""
  if IsEmpty m_script then
    let scriptFile := cfg.GetString section_ fileKey ""
    if !IsEmpty scriptFile then
      match cfg.PTextFile scriptFile with
      | none => m_script
      | some content => readLines m_script (fileLines cfg content)
    else m_script
  else m_script

/-- The members of `Routing::LuaPolicy` that lua.cxx sets. -/
structure Routing.LuaPolicy where
  m_name : String
  m_iniSection : String
  m_active : Bool
  m_script : String

/-- `Routing::LuaPolicy::LuaPolicy()`. -/
def Routing.LuaPolicy.new : Routing.LuaPolicy :=
  { m_name := "Lua", m_iniSection := "Routing::Lua", m_active := false, m_script := "" }

/-- `Routing::LuaPolicy::LoadConfig`; the trace and the SNMP trap of the failure branch go
to diagnostic channels and are left out. -/
def Routing.LuaPolicy.LoadConfig (cfg : ConfigHost) (self : Routing.LuaPolicy) :
    Routing.LuaPolicy :=
  let m_script := resolveScript cfg self.m_iniSection "Script" "ScriptFile"
  if IsEmpty m_script then { self with m_script := m_script }
  else { self with m_script := m_script, m_active := true }

/-- The members of `LuaAuth` that lua.cxx sets. -/
structure LuaAuth where
  m_registrationScript : String
  m_callScript : String

/-- `LuaAuth::LuaAuth(name, ...)`. -/
def LuaAuth.new (cfg : ConfigHost) : LuaAuth :=
  { m_registrationScript := resolveScript cfg "LuaAuth" "RegistrationScript" "RegistrationScriptFile",
    m_callScript := resolveScript cfg "LuaAuth" "CallScript" "CallScriptFile" }

/-- The member of `LuaPasswordAuth` that lua.cxx sets. -/
structure LuaPasswordAuth where
  m_script : String

/-- `LuaPasswordAuth::LuaPasswordAuth(authName)`. -/
def LuaPasswordAuth.new (cfg : ConfigHost) : LuaPasswordAuth :=
  { m_script := resolveScript cfg "LuaPasswordAuth" "Script" "ScriptFile" }

/-- `LuaAcct::StatusAcctEvents`, the events the module recognises. -/
def LuaAcct.StatusAcctEvents (env : AcctHost) : Int :=
  Int.lor (Int.lor (Int.lor (Int.lor (Int.lor (Int.lor (Int.lor (Int.lor env.AcctOn env.AcctOff)
    env.AcctStart) env.AcctStop) env.AcctUpdate) env.AcctConnect) env.AcctAlert)
    env.AcctRegister) env.AcctUnregister

/-- `LuaAcct::LuaAcct(moduleName, cfgSecName)`; `enabledEvents` is the mask the base class
constructor read. -/
def LuaAcct.new (cfg : ConfigHost) (env : AcctHost) (enabledEvents : Int) : LuaAcct :=
  { m_script := resolveScript cfg "LuaAcct" "Script" "ScriptFile",
    m_timestampFormat := cfg.GetString "LuaAcct" "TimestampFormat" "",
    GetEnabledEvents := enabledEvents,
    GetSupportedEvents := LuaAcct.StatusAcctEvents env }

/-- The lines with one "\n" between consecutive lines and nothing after the last line. -/
def joinedByNewline : List String → String
  | [] => ""
  | [line] => line
  | line :: rest => line ++ "\n" ++ joinedByNewline rest

/-- The lines, each followed by one "\n". -/
def eachTerminated : List String → String
  | [] => ""
  | line :: rest => line ++ "\n" ++ eachTerminated rest

/-- The script setting `key` of the section is empty and its file setting `fileKey` names a
file that opens and holds the characters `content`. -/
def FileSourced (cfg : ConfigHost) (section_ key fileKey : String) (content : String) : Prop :=
  cfg.GetString section_ key "" = ""
  ∧ cfg.GetString section_ fileKey "" ≠ ""
  ∧ cfg.PTextFile (cfg.GetString section_ fileKey "") = some content

/-- A line of a text file: it holds no line feed, no carriage return and no NUL. -/
def isTextLine (line : String) : Bool :=
  line.data.all fun c => c != '\n' && c != '\r' && c != NUL

/-- The characters of the text file with the given lines: every line is ended by
`ending`. -/
def textFile (ending : String) : List String → String
  | [] => ""
  | line :: rest => line ++ ending ++ textFile ending rest

/-- The lines, each with the carriage return of its CRLF ending left in it. -/
def withCR (lines : List String) : List String := lines.map fun line => line ++ "\r"

/-- A configuration with no inline script, in which every script file setting names the
file "policy.lua", which holds the given characters; `ReadLine` drops the carriage return
that ends a line, and returns the characters after the last line feed. -/
def fileConfig (content : String) : ConfigHost :=
  { GetString := fun _ key dflt =>
      if key = "ScriptFile" || key = "RegistrationScriptFile" || key = "CallScriptFile"
      then "policy.lua" else dflt,
    PTextFile := fun path => if path = "policy.lua" then some content else none,
    ReadLine_dropsCR := true,
    ReadLine_returnsLast := true }

/-- The same configuration on a host whose `ReadLine` keeps the carriage return and
returns only lines ended by a line feed. -/
def plainFileConfig (content : String) : ConfigHost :=
  { GetString := fun _ key dflt =>
      if key = "ScriptFile" || key = "RegistrationScriptFile" || key = "CallScriptFile"
      then "policy.lua" else dflt,
    PTextFile := fun path => if path = "policy.lua" then some content else none,
    ReadLine_dropsCR := false,
    ReadLine_returnsLast := false }

/-- The name under which the parameter loop is required to write a key: "param_" followed
by the key with every '-' replaced by '_' and every other character kept. -/
def paramName (k : String) : String :=
  String.mk ("param_".data ++ k.data.map fun c => if c = '-' then '_' else c)

/-- The entry point returned, its handle is NULL again, and its record of library calls is
one `newstate` first, one `close` last, and neither of them in between: the session it
opened was closed exactly once before the return. -/
def ReleasedOnce {α : Type} (x : Outcome (α × Host)) : Prop :=
  ∃ (a : α) (mid : List LuaCall),
    x = Outcome.done (a, { lua := none, calls := LuaCall.newstate :: (mid ++ [LuaCall.close]) })
    ∧ LuaCall.close ∉ mid ∧ LuaCall.newstate ∉ mid

/-- The Lua integer 5. -/
def luaFive : lua_Integer := ⟨5, by decide⟩

/-- A session in which `result` holds the number 5, as after the statement `result = 5`,
`ratio` holds a float, `flag` a boolean, `t` a table and `f` a function. -/
def mixedState : lua_State :=
  { globals := scriptedGlobals
      [("result", LuaValue.integer luaFive), ("ratio", LuaValue.float 4602678819172646912),
       ("flag", LuaValue.boolean true), ("t", LuaValue.table),
       ("f", LuaValue.function "return 1")] freshState.globals,
    stack := [] }

/-- The `setglobal` calls the parameter loop is required to make for a mapping: one per
entry, in the order of the mapping, under the required name, with the value of the key. -/
def paramCalls (params : List (String × String)) : List LuaCall :=
  params.map fun kv => LuaCall.setglobal (paramName kv.1) kv.2

/-- The variables the parameter loop is required to set for a mapping, with their values,
in the order of the mapping. -/
def paramAssignments (params : List (String × String)) : List (String × String) :=
  params.map fun kv => (paramName kv.1, kv.2)


/-! ## Texts that start with an integer, and scripts whose texts hold a NUL -/

/-- The list begins with a decimal digit (decidable form). -/
def digitFirst : List Char → Bool
  | [] => false
  | c :: _ => c.isDigit

/-- The text starts with an integer as `strtol` reads one: after white space and an
optional sign comes a decimal digit. -/
def startsWithInteger (s : String) : Bool :=
  match s.data.dropWhile isspace with
  | '-' :: r => digitFirst r
  | '+' :: r => digitFirst r
  | r => digitFirst r

/-- The assignment of a script that leaves in `result` the Lua string made of "OK", a NUL
character and "x", as after `result = "OK\0x"`. -/
def okNulScript : List (String × LuaValue) :=
  [("result", LuaValue.string "OK\x00x")]

/-- The assignment of a script that leaves in `result` the Lua string made of "next" and a
NUL character. -/
def nextNulScript : List (String × LuaValue) :=
  [("result", LuaValue.string "next\x00")]

/-- The assignments of a script that names alias 200 at 10.0.0.2:1720 and leaves in
`action` the Lua string made of "SKIP", a NUL character and "x". -/
def skipNulScript : List (String × LuaValue) :=
  [("action", LuaValue.string "SKIP\x00x"), ("destAlias", LuaValue.string "200"),
   ("destIP", LuaValue.string "10.0.0.2:1720")]

/-- The assignments of a script that names the alias 200 and leaves in `destIP` the Lua
string made of one NUL character. -/
def nulIPScript : List (String × LuaValue) :=
  [("destAlias", LuaValue.string "200"), ("destIP", LuaValue.string "\x00")]

/-- The assignments of a script that names only the alias 200 and leaves in `action` the
Lua string made of "SKIP", a NUL character and "x". -/
def skipNulAliasScript : List (String × LuaValue) :=
  [("action", LuaValue.string "SKIP\x00x"), ("destAlias", LuaValue.string "200")]

/-- The assignment of a script that leaves in `destAlias` the Lua string made of one NUL
character. -/
def nulAliasScript : List (String × LuaValue) :=
  [("destAlias", LuaValue.string "\x00")]

/-- The assignment of a script that leaves in `action` the Lua string made of "REJECT" and
a NUL character. -/
def rejectNulScript : List (String × LuaValue) :=
  [("action", LuaValue.string "REJECT\x00")]

/-- The assignments of a script that rejects and leaves in `rejectCode` the Lua string
made of one NUL character. -/
def rejectNulCodeScript : List (String × LuaValue) :=
  [("action", LuaValue.string "REJECT"), ("rejectCode", LuaValue.string "\x00")]

/-- The assignment of a script that leaves in `password` the Lua string made of "sec", a
NUL character and "ret". -/
def passwordNulScript : List (String × LuaValue) :=
  [("password", LuaValue.string "sec\x00ret")]

/-- A logger enabled for the events Start and Stop, supporting all nine, whose script leaves
in `result` the Lua string made of "next" and a NUL character. -/
def nulLogger : LuaAcct :=
  { m_script := "result = 'next\\0'", m_timestampFormat := "", GetEnabledEvents := 3,
    GetSupportedEvents := 511 }

/-! ## Lemmas: text -/

theorem char_eq_of_toNat_eq {c d : Char} (h : c.toNat = d.toNat) : c = d := by
  rw [← Char.ofNat_toNat c, ← Char.ofNat_toNat d, h]

theorem toNat_ofNat_lower (n : Nat) (h1 : 97 ≤ n) (h2 : n ≤ 122) :
    (Char.ofNat (n - 32)).toNat = n - 32 := by
  interval_cases n <;> rfl

theorem sameLetter_iff (c d : Char) :
    sameLetter c d = true ↔
      (c = d ∨ (65 ≤ d.toNat ∧ d.toNat ≤ 90 ∧ c.toNat = d.toNat + 32)
        ∨ (65 ≤ c.toNat ∧ c.toNat ≤ 90 ∧ d.toNat = c.toNat + 32)) := by
  simp only [sameLetter, Bool.or_eq_true, Bool.and_eq_true, decide_eq_true_eq, beq_iff_eq]
  tauto

theorem toUpper_eq_iff (c d : Char) (hd : ¬ (97 ≤ d.toNat ∧ d.toNat ≤ 122)) :
    c.toUpper = d ↔ sameLetter c d = true := by
  rw [sameLetter_iff]
  unfold Char.toUpper
  by_cases hc : 97 ≤ c.toNat ∧ c.toNat ≤ 122
  · have hn := toNat_ofNat_lower c.toNat hc.1 hc.2
    simp only [ge_iff_le, hc, and_self, if_true]
    constructor
    · intro h
      have : d.toNat = c.toNat - 32 := by rw [← h, hn]
      right; left
      omega
    · intro h
      apply char_eq_of_toNat_eq
      rw [hn]
      rcases h with h | h | h
      · subst h; exact absurd hc hd
      · omega
      · omega
  · simp only [ge_iff_le, hc, if_false]
    constructor
    · intro h; left; exact h
    · intro h
      rcases h with h | h | h
      · exact h
      · exfalso; apply hc; omega
      · exfalso; apply hd; omega

theorem map_toUpper_eq_iff (s t : List Char) (ht : noLower t = true) :
    s.map Char.toUpper = t ↔ sameText s t = true := by
  induction s generalizing t with
  | nil => cases t <;> simp [sameText]
  | cons c cs ih =>
    cases t with
    | nil => simp [sameText]
    | cons d ds =>
      simp only [noLower, List.all_cons, Bool.and_eq_true] at ht
      have hd : ¬ (97 ≤ d.toNat ∧ d.toNat ≤ 122) := by
        have := ht.1
        simp at this
        omega
      simp only [List.map_cons, List.cons.injEq, sameText, Bool.and_eq_true]
      rw [toUpper_eq_iff c d hd, ih ds (by simpa [noLower] using ht.2)]

theorem ToUpper_eq_iff (s t : String) (ht : noLower t.data = true) :
    ToUpper s = t ↔ equalsIgnoringCase s t = true := by
  unfold ToUpper equalsIgnoringCase
  rw [← map_toUpper_eq_iff _ _ ht]
  constructor
  · intro h; rw [← h]
  · intro h; rw [h]


theorem digitChar_digit (d : Nat) (h : d < 10) :
    (Nat.digitChar d).isDigit = true ∧ (Nat.digitChar d).toNat - 48 = d
      ∧ isspace (Nat.digitChar d) = false ∧ Nat.digitChar d ≠ '-' ∧ Nat.digitChar d ≠ '+' := by
  interval_cases d <;> decide

theorem digitsValue_toDigitsCore (fuel : Nat) :
    ∀ n ds, n < fuel → digitsValue 0 (Nat.toDigitsCore 10 fuel n ds) = digitsValue n ds := by
  induction fuel with
  | zero => intro n ds h; omega
  | succ fuel ih =>
    intro n ds h
    have hd := digitChar_digit (n % 10) (Nat.mod_lt _ (by decide))
    unfold Nat.toDigitsCore
    by_cases h0 : n / 10 = 0
    · simp only [h0, if_true, digitsValue, hd.1, hd.2.1]
      congr 1; omega
    · simp only [h0, if_false]
      rw [ih (n / 10) _ (by omega)]
      simp only [digitsValue, hd.1, if_true, hd.2.1]
      congr 1; omega

theorem digitsValue_toDigits (n : Nat) : digitsValue 0 (Nat.toDigits 10 n) = n := by
  unfold Nat.toDigits
  rw [digitsValue_toDigitsCore (n + 1) n [] (by omega)]
  rfl

theorem toDigitsCore_digitHead (fuel : Nat) :
    ∀ n ds, (0 < fuel ∨ digitHead ds) → digitHead (Nat.toDigitsCore 10 fuel n ds) := by
  induction fuel with
  | zero =>
    intro n ds h
    rcases h with h | h
    · omega
    · unfold Nat.toDigitsCore; exact h
  | succ fuel ih =>
    intro n ds _
    unfold Nat.toDigitsCore
    by_cases h0 : n / 10 = 0
    · simp only [h0, if_true]
      exact ⟨n % 10, Nat.mod_lt _ (by decide), rfl⟩
    · simp only [h0, if_false]
      apply ih
      right
      exact ⟨n % 10, Nat.mod_lt _ (by decide), rfl⟩

theorem strtol_digitHead (l : List Char) (h : digitHead l) :
    strtol l = min LONG_MAX (digitsValue 0 l : Int) := by
  cases l with
  | nil => exact absurd h (by simp [digitHead])
  | cons c tl =>
    obtain ⟨d, hd, rfl⟩ := h
    have hc := digitChar_digit d hd
    unfold strtol
    simp only [List.dropWhile, hc.2.2.1]
    split
    · next r heq => simp at heq; exact absurd heq.1 hc.2.2.2.1
    · next r heq => simp at heq; exact absurd heq.1 hc.2.2.2.2
    · rfl

theorem strtol_nat (n : Nat) (h : (n : Int) ≤ LONG_MAX) :
    strtol (Nat.toDigits 10 n) = n := by
  have hh : digitHead (Nat.toDigits 10 n) :=
    toDigitsCore_digitHead _ _ _ (Or.inl (Nat.succ_pos n))
  rw [strtol_digitHead _ hh, digitsValue_toDigits]
  exact min_eq_right h

theorem AsInteger_toString (n : Int) (h1 : LONG_MIN ≤ n) (h2 : n ≤ LONG_MAX) :
    AsInteger (toString n) = n := by
  unfold AsInteger
  cases n with
  | ofNat m =>
    show strtol (Nat.toDigits 10 m) = _
    exact strtol_nat m h2
  | negSucc m =>
    show strtol ('-' :: Nat.toDigits 10 (m + 1)) = _
    unfold strtol
    have : isspace '-' = false := by decide
    simp only [List.dropWhile, this, digitsValue_toDigits]
    have h3 : LONG_MIN ≤ -((m + 1 : Nat) : Int) := by
      have : Int.negSucc m = -((m + 1 : Nat) : Int) := rfl
      rw [← this]; exact h1
    rw [max_eq_right h3]
    rfl

theorem toString_ne_empty (n : Int) : toString n ≠ "" := by
  cases n with
  | ofNat m =>
    intro h
    have h1 : (toString (Int.ofNat m)).data = Nat.toDigits 10 m := rfl
    have h2 := toDigitsCore_digitHead (m + 1) m [] (Or.inl (Nat.succ_pos m))
    rw [h] at h1
    unfold Nat.toDigits at h1
    rw [← h1] at h2
    exact h2
  | negSucc m =>
    intro h
    have h1 : (toString (Int.negSucc m)).data = '-' :: Nat.toDigits 10 (m + 1) := rfl
    rw [h] at h1
    simp at h1

/-! ## Lemmas: LuaBase on an open session -/

@[simp] theorem bind_done {α β : Type} (a : α) (f : α → Outcome β) :
    (Outcome.done a >>= f) = f a := rfl

@[simp] theorem bind_fault {α β : Type} (f : α → Outcome β) :
    ((Outcome.fault : Outcome α) >>= f) = Outcome.fault := rfl

@[simp] theorem pure_eq_done {α : Type} (a : α) : (pure a : Outcome α) = Outcome.done a := rfl

@[simp] theorem IsEmpty_iff (s : String) : IsEmpty s = true ↔ s = "" := by simp [IsEmpty]

theorem InitLua_entry (vm : LuaVM) (L : lua_State) :
    LuaBase.InitLua vm (some L) Host.entry = Outcome.done { lua := some (opened vm L), calls := [LuaCall.newstate] } := rfl

theorem SetString_some (L : lua_State) (c : List LuaCall) (name value : String) :
    LuaBase.SetString { lua := some L, calls := c } name value =
      Outcome.done { lua := some (assign L name value), calls := c ++ [LuaCall.setglobal name value] } := rfl

theorem GetString_some (vm : LuaVM) (L : lua_State) (c : List LuaCall) (name : String) :
    LuaBase.GetString vm { lua := some L, calls := c } name =
      Outcome.done (readText vm (L.globals name), { lua := some L, calls := c }) := by
  cases L with
  | mk g st =>
    simp only [LuaBase.GetString, lua_getglobal, lua_tostring, lua_pop]
    cases hv : g name <;> simp [readText, textOf, PString_ofCStr, hv] <;> rfl

theorem ShutdownLua_some (L : lua_State) (c : List LuaCall) :
    LuaBase.ShutdownLua { lua := some L, calls := c } = { lua := none, calls := c ++ [LuaCall.close] } := rfl

theorem RunLua_some (vm : LuaVM) (L : lua_State) (c : List LuaCall) (script : String) :
    LuaBase.RunLua vm { lua := some L, calls := c } script =
      Outcome.done ((finishes vm script L).isSome,
        { lua := some (afterRun vm script L), calls := c ++ [LuaCall.run script] }) := by
  cases L with
  | mk g0 st =>
    simp only [LuaBase.RunLua, luaL_loadstring, lua_pcall, finishes, lua_pop, afterRun]
    cases hc : vm.compile script with
    | some msg => simp [LUA_ERRSYNTAX]
    | none =>
      cases he : vm.exec script g0 with
      | ok g => simp [he, Finished.globals]
      | error m g => simp [he, LUA_ERRRUN, Finished.globals]

theorem afterRun_globals (vm : LuaVM) (script : String) (L : lua_State) (g : Globals)
    (h : finishes vm script L = some g) : (afterRun vm script L).globals = g := by
  unfold finishes at h
  unfold afterRun
  cases hc : vm.compile script with
  | some msg => simp [hc] at h
  | none =>
    rw [hc] at h
    cases he : vm.exec script L.globals with
    | ok g1 => simp [he] at h; simp [Finished.globals, h]
    | error m g1 => simp [he] at h


/-! ## Lemmas: the entry points on a session that opened -/

theorem doRegistrationCheck_some (vm : LuaVM) (L0 : lua_State) (script : String)
    (username callingStationId callerIP aliases vendor messageType message : String) :
    LuaAuth.doRegistrationCheck vm (some L0) script username callingStationId callerIP aliases
        vendor messageType message =
      if script = "" then
        Outcome.done (AuthStatus.e_fail, { lua := none, calls := [LuaCall.newstate, LuaCall.close] })
      else
        Outcome.done
          (authDecision vm (finishes vm script (assignAll (opened vm L0)
              (regInputs username callingStationId callerIP aliases vendor messageType message))),
            { lua := none,
              calls := [LuaCall.newstate] ++
                writes (regInputs username callingStationId callerIP aliases vendor messageType message)
                ++ [LuaCall.run script, LuaCall.close] }) := by
  unfold LuaAuth.doRegistrationCheck
  simp only [InitLua_entry, bind_done, Option.isNone_some, Bool.false_or, IsEmpty_iff]
  by_cases hs : script = ""
  · simp [hs, ShutdownLua_some]
  · simp only [hs, if_false, SetString_some, bind_done, RunLua_some, GetString_some,
      ShutdownLua_some, pure_eq_done]
    cases hf : finishes vm script (assignAll (opened vm L0)
              (regInputs username callingStationId callerIP aliases vendor messageType message)) with
    | none =>
      simp [regInputs, assignAll] at hf
      simp [hf, authDecision, regInputs, writes]
    | some g =>
      simp [regInputs, assignAll] at hf
      have hg := afterRun_globals _ _ _ _ hf
      simp [hf, hg, authDecision, regInputs, writes]

theorem doCallCheck_some (vm : LuaVM) (L0 : lua_State) (script : String)
    (messageType message source calledAlias calledIP caller callingStationId callid
      srcinfo vendor : String) :
    LuaAuth.doCallCheck vm (some L0) script messageType message source calledAlias calledIP
        caller callingStationId callid srcinfo vendor =
      if script = "" then
        Outcome.done (AuthStatus.e_fail, { lua := none, calls := [LuaCall.newstate, LuaCall.close] })
      else
        Outcome.done
          (authDecision vm (finishes vm script (assignAll (opened vm L0)
              (callInputs messageType message source calledAlias calledIP caller
                callingStationId callid srcinfo vendor))),
            { lua := none,
              calls := [LuaCall.newstate] ++
                writes (callInputs messageType message source calledAlias calledIP caller
                  callingStationId callid srcinfo vendor)
                ++ [LuaCall.run script, LuaCall.close] }) := by
  unfold LuaAuth.doCallCheck
  simp only [InitLua_entry, bind_done, Option.isNone_some, Bool.false_or, IsEmpty_iff]
  by_cases hs : script = ""
  · simp [hs, ShutdownLua_some]
  · simp only [hs, if_false, SetString_some, bind_done, RunLua_some, GetString_some,
      ShutdownLua_some, pure_eq_done]
    cases hf : finishes vm script (assignAll (opened vm L0)
              (callInputs messageType message source calledAlias calledIP caller
                callingStationId callid srcinfo vendor)) with
    | none =>
      simp [callInputs, assignAll] at hf
      simp [hf, authDecision, callInputs, writes]
    | some g =>
      simp [callInputs, assignAll] at hf
      have hg := afterRun_globals _ _ _ _ hf
      simp [hf, hg, authDecision, callInputs, writes]

theorem GetPassword_some (vm : LuaVM) (L0 : lua_State) (script gkName alias_ password : String) :
    LuaPasswordAuth.GetPassword vm (some L0) script gkName alias_ password =
      if script = "" then
        Outcome.done ((false, password), { lua := none, calls := [LuaCall.newstate, LuaCall.close] })
      else
        Outcome.done
          (match finishes vm script (assignAll (opened vm L0) (passwordInputs alias_ gkName)) with
            | none => (false, password)
            | some g => (true, readText vm (g "password")),
            { lua := none,
              calls := [LuaCall.newstate] ++ writes (passwordInputs alias_ gkName)
                ++ [LuaCall.run script, LuaCall.close] }) := by
  unfold LuaPasswordAuth.GetPassword
  simp only [InitLua_entry, bind_done, Option.isNone_some, Bool.false_or, IsEmpty_iff]
  by_cases hs : script = ""
  · simp [hs, ShutdownLua_some]
  · simp only [hs, if_false, SetString_some, bind_done, RunLua_some, GetString_some,
      ShutdownLua_some, pure_eq_done]
    cases hf : finishes vm script (assignAll (opened vm L0) (passwordInputs alias_ gkName)) with
    | none =>
      simp [passwordInputs, assignAll] at hf
      simp [hf, passwordInputs, writes]
    | some g =>
      simp [passwordInputs, assignAll] at hf
      have hg := afterRun_globals _ _ _ _ hf
      simp [hf, hg, passwordInputs, writes]

theorem RunPolicy_some (vm : LuaVM) (env : RoutingHost) (L0 : lua_State) (script : String)
    (source calledAlias calledIP caller callingStationId callid messageType clientauthid
      language : String) (destination : DestinationRoutes) :
    Routing.LuaPolicy.RunPolicy vm env (some L0) script source calledAlias calledIP caller
        callingStationId callid messageType clientauthid language destination =
      Outcome.done
        (routeDecision vm env destination (finishes vm script (assignAll (opened vm L0)
            (routingInputs source calledAlias calledIP caller callingStationId callid
              messageType clientauthid language))),
          { lua := none,
            calls := [LuaCall.newstate] ++
              writes (routingInputs source calledAlias calledIP caller callingStationId callid
                messageType clientauthid language)
              ++ [LuaCall.run script, LuaCall.close] }) := by
  unfold Routing.LuaPolicy.RunPolicy
  simp only [InitLua_entry, bind_done, SetString_some, RunLua_some, GetString_some,
    ShutdownLua_some, pure_eq_done]
  cases hf : finishes vm script (assignAll (opened vm L0)
            (routingInputs source calledAlias calledIP caller callingStationId callid
              messageType clientauthid language)) with
  | none =>
    simp [routingInputs, assignAll] at hf
    simp [hf, routeDecision, routingInputs, writes]
  | some g =>
    simp [routingInputs, assignAll] at hf
    have hg := afterRun_globals _ _ _ _ hf
    simp only [hf, hg, routeDecision, routingInputs, writes, Option.isSome_some, Bool.not_true,
      Bool.false_eq_true, if_false]
    by_cases h1 : ToUpper (readText vm (g "action")) = "SKIP"
    · simp [h1]
    · by_cases h2 : ToUpper (readText vm (g "action")) = "REJECT"
      · by_cases h3 : readText vm (g "rejectCode") = "" <;> simp [h1, h2, h3]
      · by_cases h4 : readText vm (g "destIP") = "" <;> by_cases h5 : readText vm (g "destAlias") = "" <;>
          simp [IsEmpty, h1, h2, h4, h5, luaRoute, Route.new, SocketToH225TransportAddr]

theorem assignAll_append (L : lua_State) (a b : List (String × String)) :
    assignAll L (a ++ b) = assignAll (assignAll L a) b := by
  induction a generalizing L with
  | nil => rfl
  | cons kv rest ih => simp [assignAll, ih]

theorem writeParams_some (L : lua_State) (c : List LuaCall) (params : List (String × String)) :
    LuaAcct.writeParams { lua := some L, calls := c } params =
      Outcome.done { lua := some (assignAll L (paramWrites params)),
                     calls := c ++ writes (paramWrites params) } := by
  induction params generalizing L c with
  | nil => simp [LuaAcct.writeParams, paramWrites, assignAll, writes]
  | cons kv rest ih =>
    simp only [LuaAcct.writeParams, SetString_some, Outcome.bind, ih]
    simp [paramWrites, assignAll, writes]

theorem checkstack_some (vm : LuaVM) (L : lua_State) (c : List LuaCall) (n : Nat) :
    checkstack vm { lua := some L, calls := c } n = Outcome.done (vm.lua_checkstack L n) := rfl

theorem Log_some (vm : LuaVM) (env : AcctHost) (L0 : lua_State) (self : LuaAcct) (evt : Int)
    (call : Option Nat)
    (hen : Int.land (Int.land evt self.GetEnabledEvents) self.GetSupportedEvents ≠ 0)
    (hs : self.m_script ≠ "")
    (hc : call ≠ none ∨ evt = env.AcctOn ∨ evt = env.AcctOff)
    (hroom : vm.lua_checkstack
        (assignAll (opened vm L0) [("event", LuaAcct.callEventName env evt), ("result", "OK")])
        (LuaAcct.callParams env self evt call).length = true) :
    LuaAcct.Log vm env (some L0) self evt call =
      Outcome.done
        (acctDecision vm (finishes vm self.m_script (assignAll (opened vm L0)
            (acctInputs (LuaAcct.callEventName env evt) (LuaAcct.callParams env self evt call)))),
          { lua := none,
            calls := [LuaCall.newstate] ++
              writes (acctInputs (LuaAcct.callEventName env evt)
                (LuaAcct.callParams env self evt call))
              ++ [LuaCall.run self.m_script, LuaCall.close] }) := by
  unfold LuaAcct.Log
  have hguard : (call.isNone && evt != env.AcctOn && evt != env.AcctOff) = false := by
    rcases hc with h | h | h
    · cases call with
      | none => exact absurd rfl h
      | some c => simp
    · simp [h]
    · simp [h]
  simp only [assignAll] at hroom
  simp only [hen, if_false, InitLua_entry, bind_done, Option.isNone_some, Bool.false_or,
    IsEmpty_iff, hs, hguard, Bool.false_eq_true, SetString_some, checkstack_some, hroom,
    Bool.not_true, writeParams_some, RunLua_some, GetString_some, ShutdownLua_some, pure_eq_done]
  rw [show acctInputs (LuaAcct.callEventName env evt) (LuaAcct.callParams env self evt call)
      = [("event", LuaAcct.callEventName env evt), ("result", "OK")]
        ++ paramWrites (LuaAcct.callParams env self evt call) from rfl, assignAll_append]
  simp only [assignAll]
  cases hf : finishes vm self.m_script (assignAll
      (assign (assign (opened vm L0) "event" (LuaAcct.callEventName env evt)) "result" "OK")
      (paramWrites (LuaAcct.callParams env self evt call))) with
  | none => simp [acctDecision, writes]
  | some g =>
    have hg := afterRun_globals _ _ _ _ hf
    simp [hg, acctDecision, writes]

theorem LogEp_some (vm : LuaVM) (env : AcctHost) (L0 : lua_State) (self : LuaAcct) (evt : Int)
    (ep : Option Nat)
    (hen : Int.land (Int.land evt self.GetEnabledEvents) self.GetSupportedEvents ≠ 0)
    (hs : self.m_script ≠ "")
    (hc : ep ≠ none)
    (hroom : vm.lua_checkstack
        (assignAll (opened vm L0) [("event", LuaAcct.epEventName env evt), ("result", "OK")])
        (env.SetupAcctEndpointParams ep self.m_timestampFormat).length = true) :
    LuaAcct.LogEp vm env (some L0) self evt ep =
      Outcome.done
        (acctDecision vm (finishes vm self.m_script (assignAll (opened vm L0)
            (acctInputs (LuaAcct.epEventName env evt)
              (env.SetupAcctEndpointParams ep self.m_timestampFormat)))),
          { lua := none,
            calls := [LuaCall.newstate] ++
              writes (acctInputs (LuaAcct.epEventName env evt)
                (env.SetupAcctEndpointParams ep self.m_timestampFormat))
              ++ [LuaCall.run self.m_script, LuaCall.close] }) := by
  unfold LuaAcct.LogEp
  have hguard : ep.isNone = false := by
    cases ep with
    | none => exact absurd rfl hc
    | some c => rfl
  simp only [assignAll] at hroom
  simp only [hen, if_false, InitLua_entry, bind_done, Option.isNone_some, Bool.false_or,
    IsEmpty_iff, hs, hguard, Bool.false_eq_true, SetString_some, checkstack_some, hroom,
    Bool.not_true, writeParams_some, RunLua_some, GetString_some, ShutdownLua_some, pure_eq_done]
  rw [show acctInputs (LuaAcct.epEventName env evt)
        (env.SetupAcctEndpointParams ep self.m_timestampFormat)
      = [("event", LuaAcct.epEventName env evt), ("result", "OK")]
        ++ paramWrites (env.SetupAcctEndpointParams ep self.m_timestampFormat) from rfl,
    assignAll_append]
  simp only [assignAll]
  cases hf : finishes vm self.m_script (assignAll
      (assign (assign (opened vm L0) "event" (LuaAcct.epEventName env evt)) "result" "OK")
      (paramWrites (env.SetupAcctEndpointParams ep self.m_timestampFormat))) with
  | none => simp [acctDecision, writes]
  | some g =>
    have hg := afterRun_globals _ _ _ _ hf
    simp [hg, acctDecision, writes]


/-! ## Lemmas: decisions and contracts -/

theorem authDecision_mapping (vm : LuaVM) (fin : Option Globals) :
    ResultMapping vm (Outcome.done AuthStatus.e_ok) (Outcome.done AuthStatus.e_next)
      (Outcome.done AuthStatus.e_fail) fin (Outcome.done (authDecision vm fin)) := by
  cases fin with
  | none => simp [ResultMapping, authDecision]
  | some g =>
    have hOK := ToUpper_eq_iff (readText vm (g "result")) "OK" (by decide)
    have hNX := ToUpper_eq_iff (readText vm (g "result")) "NEXT" (by decide)
    unfold ResultMapping authDecision
    by_cases h1 : ToUpper (readText vm (g "result")) = "OK"
    · have h2 : ¬ ToUpper (readText vm (g "result")) = "NEXT" := by rw [h1]; decide
      have e1 := hOK.mp h1
      have e2 : equalsIgnoringCase (readText vm (g "result")) "NEXT" = false := by
        simpa using mt hNX.mpr h2
      simp [h1, e1, e2]
    · have e1 : equalsIgnoringCase (readText vm (g "result")) "OK" = false := by
        simpa using mt hOK.mpr h1
      by_cases h2 : ToUpper (readText vm (g "result")) = "NEXT"
      · have e2 := hNX.mp h2
        simp [h1, h2, e1, e2]
      · have e2 : equalsIgnoringCase (readText vm (g "result")) "NEXT" = false := by
          simpa using mt hNX.mpr h2
        simp [h1, h2, e1, e2]

theorem acctDecision_mapping (vm : LuaVM) (fin : Option Globals) :
    ResultMapping vm (Outcome.done AcctStatus.Ok) (Outcome.done AcctStatus.Next)
      (Outcome.done AcctStatus.Fail) fin (Outcome.done (acctDecision vm fin)) := by
  cases fin with
  | none => simp [ResultMapping, acctDecision]
  | some g =>
    have hOK := ToUpper_eq_iff (readText vm (g "result")) "OK" (by decide)
    have hNX := ToUpper_eq_iff (readText vm (g "result")) "NEXT" (by decide)
    unfold ResultMapping acctDecision
    by_cases h1 : ToUpper (readText vm (g "result")) = "OK"
    · have h2 : ¬ ToUpper (readText vm (g "result")) = "NEXT" := by rw [h1]; decide
      have e1 := hOK.mp h1
      have e2 : equalsIgnoringCase (readText vm (g "result")) "NEXT" = false := by
        simpa using mt hNX.mpr h2
      simp [h1, e1, e2]
    · have e1 : equalsIgnoringCase (readText vm (g "result")) "OK" = false := by
        simpa using mt hOK.mpr h1
      by_cases h2 : ToUpper (readText vm (g "result")) = "NEXT"
      · have e2 := hNX.mp h2
        simp [h1, h2, e1, e2]
      · have e2 : equalsIgnoringCase (readText vm (g "result")) "NEXT" = false := by
          simpa using mt hNX.mpr h2
        simp [h1, h2, e1, e2]

theorem authContract_of (vm : LuaVM) (script : String) (start : lua_State)
    (hstart : start.globals "result" = LuaValue.string "FAIL") :
    AuthContract vm script start
      (Outcome.done (authDecision vm (if script = "" then none else finishes vm script start))) := by
  refine ⟨authDecision_mapping vm _, ?_, ?_, hstart, ?_⟩
  · intro h; simp [h, authDecision]
  · intro h; simp [h, authDecision]
  · intro g hg hres
    by_cases hs : script = ""
    · simp [hs, authDecision]
    · have h1 : ToUpper (readText vm (g "result")) ≠ "OK" := by
        rw [hres, hstart]; show ToUpper (cstr "FAIL") ≠ "OK"; decide
      have h2 : ToUpper (readText vm (g "result")) ≠ "NEXT" := by
        rw [hres, hstart]; show ToUpper (cstr "FAIL") ≠ "NEXT"; decide
      simp [hs, hg, authDecision, h1, h2]

theorem assignAll_globals_other (L : lua_State) (kvs : List (String × String)) (k : String)
    (h : ∀ kv ∈ kvs, kv.1 ≠ k) : (assignAll L kvs).globals k = L.globals k := by
  induction kvs generalizing L with
  | nil => rfl
  | cons kv rest ih =>
    have h1 : kv.1 ≠ k := h kv (List.mem_cons_self _ _)
    have h2 : ∀ x ∈ rest, x.1 ≠ k := fun x hx => h x (List.mem_cons_of_mem _ hx)
    simp only [assignAll]
    rw [ih _ h2]
    simp [assign, Ne.symm h1]

theorem paramWrites_name_ne_result (params : List (String × String)) :
    ∀ kv ∈ paramWrites params, kv.1 ≠ "result" := by
  intro kv hkv
  simp only [paramWrites, List.mem_map] at hkv
  obtain ⟨x, _, rfl⟩ := hkv
  intro h
  have := congrArg String.data h
  simp [Replace] at this

theorem acctStart_result (L : lua_State) (eventName : String) (params : List (String × String)) :
    (assignAll L (acctInputs eventName params)).globals "result" = LuaValue.string "OK" := by
  unfold acctInputs
  rw [assignAll_append, assignAll_globals_other _ _ _ (paramWrites_name_ne_result params)]
  simp [assignAll, assign]

theorem acctContract_of (vm : LuaVM) (script : String) (start : lua_State)
    (hstart : start.globals "result" = LuaValue.string "OK") :
    AcctContract vm script start (Outcome.done (acctDecision vm (finishes vm script start))) := by
  refine ⟨hstart, acctDecision_mapping vm _, ?_, ?_⟩
  · intro h; simp [h, acctDecision]
  · intro g hg hres
    have h1 : ToUpper (readText vm (g "result")) = "OK" := by
      rw [hres, hstart]; show ToUpper (cstr "OK") = "OK"; decide
    simp [hg, acctDecision, h1]

theorem SplitIPAndPort_no_colon (s : String) (d : Nat) (h : ':' ∉ s.data) :
    SplitIPAndPort s d = (s, toString d) := by
  unfold SplitIPAndPort
  have hall : ∀ x ∈ s.data, (fun c : Char => c != ':') x = true := by
    intro x hx
    simp only [bne_iff_ne, ne_eq]
    intro hc
    exact h (hc ▸ hx)
  rw [List.span_eq_take_drop, List.takeWhile_eq_self_iff.mpr hall,
    List.dropWhile_eq_nil_iff.mpr hall]


/-! ## Lemmas: C text -/

theorem cstr_eq_self (s : String) (h : NUL ∉ s.data) : cstr s = s := by
  unfold cstr
  have hall : ∀ x ∈ s.data, (fun c : Char => c != NUL) x = true := by
    intro x hx
    simp only [bne_iff_ne, ne_eq]
    intro hc
    exact h (hc ▸ hx)
  rw [List.takeWhile_eq_self_iff.mpr hall]

theorem sameLetter_ne_NUL (c d : Char) (h : sameLetter c d = true) (hd : d ≠ NUL) :
    c ≠ NUL := by
  rcases (sameLetter_iff c d).mp h with h | h | h
  · rw [h]; exact hd
  · intro hc
    have h0 : c.toNat = 0 := by rw [hc]; rfl
    omega
  · intro hc
    have h0 : c.toNat = 0 := by rw [hc]; rfl
    omega

theorem sameText_no_NUL (t u : List Char) (h : sameText t u = true) (hu : NUL ∉ u) :
    NUL ∉ t := by
  induction t generalizing u with
  | nil => simp
  | cons c cs ih =>
    cases u with
    | nil => simp [sameText] at h
    | cons d ds =>
      simp only [sameText, Bool.and_eq_true] at h
      simp only [List.mem_cons, not_or] at hu ⊢
      exact ⟨fun e => sameLetter_ne_NUL c d h.1 (fun e2 => hu.1 e2.symm) e.symm,
        ih ds h.2 hu.2⟩

theorem cstr_of_equalsIgnoringCase (t u : String) (h : equalsIgnoringCase t u = true)
    (hu : NUL ∉ u.data) : cstr t = t :=
  cstr_eq_self t (sameText_no_NUL t.data u.data h hu)

theorem digitChar_ne_NUL (d : Nat) (h : d < 10) : Nat.digitChar d ≠ NUL := by
  interval_cases d <;> decide

theorem toDigitsCore_no_NUL (fuel : Nat) :
    ∀ (n : Nat) (acc : List Char), NUL ∉ acc → NUL ∉ Nat.toDigitsCore 10 fuel n acc := by
  induction fuel with
  | zero => intro n acc h; simpa [Nat.toDigitsCore] using h
  | succ f ih =>
    intro n acc h
    have hd : Nat.digitChar (n % 10) ≠ NUL := digitChar_ne_NUL _ (Nat.mod_lt _ (by decide))
    have hacc : NUL ∉ Nat.digitChar (n % 10) :: acc := by
      simp only [List.mem_cons, not_or]
      exact ⟨fun e => hd e.symm, h⟩
    simp only [Nat.toDigitsCore]
    split
    · exact hacc
    · exact ih _ _ hacc

theorem toString_no_NUL (n : Int) : NUL ∉ (toString n).data := by
  cases n with
  | ofNat m =>
    have h1 : (toString (Int.ofNat m)).data = Nat.toDigits 10 m := rfl
    rw [h1]
    exact toDigitsCore_no_NUL _ _ _ (by simp)
  | negSucc m =>
    have h1 : (toString (Int.negSucc m)).data = '-' :: Nat.toDigits 10 (m + 1) := rfl
    rw [h1]
    simp only [List.mem_cons, not_or]
    exact ⟨by decide, toDigitsCore_no_NUL _ _ _ (by simp)⟩

theorem cstr_empty_of_empty (s : String) (h : s = "") : cstr s = "" := by
  rw [h]; rfl

theorem digitsValue_of_not_digitFirst (r : List Char) (h : digitFirst r = false) :
    digitsValue 0 r = 0 := by
  cases r with
  | nil => rfl
  | cons c cs =>
    simp only [digitFirst] at h
    simp [digitsValue, h]

theorem AsInteger_of_not_startsWithInteger (s : String) (h : startsWithInteger s = false) :
    AsInteger s = 0 := by
  unfold startsWithInteger at h
  unfold AsInteger strtol
  generalize s.data.dropWhile isspace = r at h ⊢
  have hmin : min LONG_MAX ((0 : Nat) : Int) = 0 := by decide
  have hmax : max LONG_MIN (-((0 : Nat) : Int)) = 0 := by decide
  cases r with
  | nil => exact hmin
  | cons c cs =>
    by_cases h1 : c = '-'
    · subst h1
      simp only at h
      simp only [digitsValue_of_not_digitFirst cs h]
      exact hmax
    · by_cases h2 : c = '+'
      · subst h2
        simp only at h
        simp only [digitsValue_of_not_digitFirst cs h]
        exact hmin
      · have h3 : digitFirst (c :: cs) = false := by
          split at h
          · rename_i r heq
            exact absurd (List.cons.inj heq).1 h1
          · rename_i r heq
            exact absurd (List.cons.inj heq).1 h2
          · exact h
        have h4 : digitsValue 0 (c :: cs) = 0 := digitsValue_of_not_digitFirst _ h3
        split
        · rename_i r heq
          exact absurd (List.cons.inj heq).1 h1
        · rename_i r heq
          exact absurd (List.cons.inj heq).1 h2
        · rw [h4]; exact hmin

theorem readText_of_equalsIgnoringCase (vm : LuaVM) (v : LuaValue) (u : String)
    (h : equalsIgnoringCase (textOf vm v) u = true) (hu : NUL ∉ u.data) :
    readText vm v = textOf vm v :=
  cstr_of_equalsIgnoringCase _ u h hu


/-! ## The claims -/

/-- C1, as stated, fails: a script that leaves in `result` the Lua string made of "OK", a
NUL character and "x", which is not equal to "OK" ignoring letter case, is accepted (e_ok)
by the registration check and by the call check: the host reads `result` through a
`const char *`, up to the first NUL. -/
theorem C1_auth_result_mapping_counterexample :
    (finishes (scriptedVM okNulScript) "s" (assignAll (opened (scriptedVM okNulScript) freshState)
        (regInputs "u" "100" "10.0.0.1" "100,bob" "v" "RRQ" "m"))).map
      (fun g => (g "result", equalsIgnoringCase (textOf (scriptedVM okNulScript) (g "result")) "OK"))
      = some (LuaValue.string "OK\x00x", false)
    ∧ (LuaAuth.doRegistrationCheck (scriptedVM okNulScript) (some freshState) "s" "u" "100"
        "10.0.0.1" "100,bob" "v" "RRQ" "m").value = Outcome.done AuthStatus.e_ok
    ∧ (LuaAuth.doCallCheck (scriptedVM okNulScript) (some freshState) "s" "ARQ" "m" "10.0.0.1"
        "200" "" "c" "100" "id" "s" "v").value = Outcome.done AuthStatus.e_ok := by
  refine ⟨by decide, by decide, by decide⟩

/-- C1, amended: for a registration check and for a call check whose session opened, the
result is e_ok exactly when the script is not empty, finishes successfully and leaves
`result`, read up to its first NUL character, equal to "OK" ignoring letter case, e_next
exactly when it so leaves "NEXT", and e_fail in every other case: an empty script, a script
that fails to compile or to run, and a script that leaves `result` as pre-set ("FAIL"). -/
theorem C1_auth_result_mapping (vm : LuaVM) (L0 : lua_State)
    (m_registrationScript m_callScript : String)
    (username callingStationId callerIP aliases vendor messageType message : String)
    (source calledAlias calledIP caller callid srcinfo : String) :
    AuthContract vm m_registrationScript
        (assignAll (opened vm L0)
          (regInputs username callingStationId callerIP aliases vendor messageType message))
        (LuaAuth.doRegistrationCheck vm (some L0) m_registrationScript username
          callingStationId callerIP aliases vendor messageType message).value
    ∧ AuthContract vm m_callScript
        (assignAll (opened vm L0)
          (callInputs messageType message source calledAlias calledIP caller callingStationId
            callid srcinfo vendor))
        (LuaAuth.doCallCheck vm (some L0) m_callScript messageType message source calledAlias
          calledIP caller callingStationId callid srcinfo vendor).value := by
  constructor
  · have h := authContract_of vm m_registrationScript
      (assignAll (opened vm L0)
        (regInputs username callingStationId callerIP aliases vendor messageType message))
      (by simp [regInputs, assignAll, assign])
    rw [doRegistrationCheck_some]
    by_cases hs : m_registrationScript = ""
    · simpa [hs, Outcome.value, authDecision] using h
    · simpa [hs, Outcome.value] using h
  · have h := authContract_of vm m_callScript
      (assignAll (opened vm L0)
        (callInputs messageType message source calledAlias calledIP caller callingStationId
          callid srcinfo vendor))
      (by simp [callInputs, assignAll, assign])
    rw [doCallCheck_some]
    by_cases hs : m_callScript = ""
    · simpa [hs, Outcome.value, authDecision] using h
    · simpa [hs, Outcome.value] using h

/-- C1 amended, at concrete inputs: a registration script that sets `result` to "ok" is accepted,
and a call check whose script is empty is denied. -/
theorem C1_auth_result_mapping_witness :
    (LuaAuth.doRegistrationCheck (scriptedVM [("result", LuaValue.string "ok")])
        (some freshState) "result = 'ok'" "u" "100" "10.0.0.1" "100,bob" "v" "RRQ" "m").value =
      Outcome.done AuthStatus.e_ok
    ∧ (LuaAuth.doCallCheck (scriptedVM [("result", LuaValue.string "ok")])
        (some freshState) "" "RRQ" "m" "10.0.0.1" "200" "" "c" "100" "id" "s" "v").value =
      Outcome.done AuthStatus.e_fail :=
  ⟨(C1_auth_result_mapping (scriptedVM [("result", LuaValue.string "ok")]) freshState
      "result = 'ok'" "" "u" "100" "10.0.0.1" "100,bob" "v" "RRQ" "m" "10.0.0.1" "200" "" "c"
      "id" "s").1.1.1.mpr
      ⟨scriptedGlobals [("result", LuaValue.string "ok")]
        (assignAll (opened (scriptedVM [("result", LuaValue.string "ok")]) freshState)
          (regInputs "u" "100" "10.0.0.1" "100,bob" "v" "RRQ" "m")).globals, rfl, by decide⟩,
   (C1_auth_result_mapping (scriptedVM [("result", LuaValue.string "ok")]) freshState
      "result = 'ok'" "" "u" "100" "10.0.0.1" "100,bob" "v" "RRQ" "m" "10.0.0.1" "200" "" "c"
      "id" "s").2.2.1 rfl⟩

/-- C2: when the script finishes successfully and leaves `action` equal to "SKIP" ignoring
letter case, `RunPolicy` returns the destination exactly as it received it, whatever
destAlias, destIP and rejectCode hold. -/
theorem C2_skip_leaves_destination (vm : LuaVM) (env : RoutingHost) (L0 : lua_State)
    (m_script source calledAlias calledIP caller callingStationId callid messageType
      clientauthid language : String) (destination : DestinationRoutes) (g : Globals)
    (hrun : finishes vm m_script (assignAll (opened vm L0)
        (routingInputs source calledAlias calledIP caller callingStationId callid messageType
          clientauthid language)) = some g)
    (haction : equalsIgnoringCase (textOf vm (g "action")) "SKIP" = true) :
    (Routing.LuaPolicy.RunPolicy vm env (some L0) m_script source calledAlias calledIP caller
      callingStationId callid messageType clientauthid language destination).value =
        Outcome.done destination := by
  have h1 : ToUpper (readText vm (g "action")) = "SKIP" := by
    rw [readText_of_equalsIgnoringCase vm _ "SKIP" haction (by decide)]
    exact (ToUpper_eq_iff _ "SKIP" (by decide)).mpr haction
  rw [RunPolicy_some, hrun]
  simp [Outcome.value, routeDecision, h1]

/-- C2 at a concrete input: a script that sets action to "Skip" and also sets destAlias,
destIP and rejectCode. -/
theorem C2_skip_leaves_destination_witness :
    (Routing.LuaPolicy.RunPolicy (scriptedVM skipScript) plainRoutingHost (some freshState)
      "action = 'Skip'" "10.0.0.1" "100" "" "caller" "100" "id" "ARQ" "" "en"
      emptyDestination).value = Outcome.done emptyDestination :=
  C2_skip_leaves_destination (scriptedVM skipScript) plainRoutingHost freshState
    "action = 'Skip'" "10.0.0.1" "100" "" "caller" "100" "id" "ARQ" "" "en" emptyDestination
    (scriptedGlobals skipScript (assignAll (opened (scriptedVM skipScript) freshState)
      (routingInputs "10.0.0.1" "100" "" "caller" "100" "id" "ARQ" "" "en")).globals)
    rfl (by decide)

/-- C3, as stated, fails: with action "REJECT" and rejectCode the decimal text of
n = 9223372036854775808, the reject reason is 9223372036854775807, not n. -/
theorem C3_reject_reason_counterexample :
    (finishes (scriptedVM rejectBigScript) "s" (assignAll (opened (scriptedVM rejectBigScript) freshState)
        (routingInputs "10.0.0.1" "100" "" "caller" "100" "id" "ARQ" "" "en"))).map
      (fun g => (textOf (scriptedVM rejectBigScript) (g "action"),
        textOf (scriptedVM rejectBigScript) (g "rejectCode")))
      = some ("REJECT", toString (9223372036854775808 : Int))
    ∧ (Routing.LuaPolicy.RunPolicy (scriptedVM rejectBigScript) plainRoutingHost (some freshState)
        "s" "10.0.0.1" "100" "" "caller" "100" "id" "ARQ" "" "en" emptyDestination).value =
      Outcome.done { m_routes := [], m_rejectCall := true, m_rejectReason := 9223372036854775807,
                     m_newAliases := none }
    ∧ (9223372036854775807 : Int) ≠ 9223372036854775808 := by
  refine ⟨by decide, by decide, by decide⟩

/-- C3, amended: when the script finishes successfully and leaves `action` equal to
"REJECT" ignoring letter case and `rejectCode` equal to the decimal text of an integer n
that a C `long` holds, `RunPolicy` marks the call rejected with reject reason n and leaves
the route candidates and the new aliases as they were, whatever destAlias and destIP hold. -/
theorem C3_reject_reason (vm : LuaVM) (env : RoutingHost) (L0 : lua_State)
    (m_script source calledAlias calledIP caller callingStationId callid messageType
      clientauthid language : String) (destination : DestinationRoutes) (g : Globals) (n : Int)
    (hrun : finishes vm m_script (assignAll (opened vm L0)
        (routingInputs source calledAlias calledIP caller callingStationId callid messageType
          clientauthid language)) = some g)
    (haction : equalsIgnoringCase (textOf vm (g "action")) "REJECT" = true)
    (hcode : textOf vm (g "rejectCode") = toString n)
    (hlo : LONG_MIN ≤ n) (hhi : n ≤ LONG_MAX) :
    (Routing.LuaPolicy.RunPolicy vm env (some L0) m_script source calledAlias calledIP caller
      callingStationId callid messageType clientauthid language destination).value =
        Outcome.done { m_routes := destination.m_routes, m_rejectCall := true,
                       m_rejectReason := n, m_newAliases := destination.m_newAliases } := by
  have h1 : ToUpper (readText vm (g "action")) = "REJECT" := by
    rw [readText_of_equalsIgnoringCase vm _ "REJECT" haction (by decide)]
    exact (ToUpper_eq_iff _ "REJECT" (by decide)).mpr haction
  have h0 : ToUpper (readText vm (g "action")) ≠ "SKIP" := by rw [h1]; decide
  have hread : readText vm (g "rejectCode") = toString n := by
    unfold readText
    rw [hcode]
    exact cstr_eq_self _ (toString_no_NUL n)
  rw [RunPolicy_some, hrun]
  simp [Outcome.value, routeDecision, h0, h1, hread, toString_ne_empty,
    AsInteger_toString n hlo hhi, DestinationRoutes.SetRejectCall,
    DestinationRoutes.SetRejectReason]

/-- C3 amended, at the input of the specification: action "Reject", rejectCode "123",
with destAlias and destIP set as well. -/
theorem C3_reject_reason_witness :
    (Routing.LuaPolicy.RunPolicy (scriptedVM reject123Script) plainRoutingHost (some freshState)
      "s" "10.0.0.1" "100" "" "caller" "100" "id" "ARQ" "" "en" emptyDestination).value =
        Outcome.done { m_routes := [], m_rejectCall := true, m_rejectReason := 123,
                       m_newAliases := none } :=
  C3_reject_reason (scriptedVM reject123Script) plainRoutingHost freshState
    "s" "10.0.0.1" "100" "" "caller" "100" "id" "ARQ" "" "en" emptyDestination
    (scriptedGlobals reject123Script (assignAll (opened (scriptedVM reject123Script) freshState)
      (routingInputs "10.0.0.1" "100" "" "caller" "100" "id" "ARQ" "" "en")).globals)
    123 rfl (by decide) (by decide) (by decide) (by decide)

/-- C4, as stated, fails: a script that names alias 200 at 10.0.0.2:1720 and leaves in
`action` the Lua string made of "SKIP", a NUL character and "x", which equals neither
"SKIP" nor "REJECT" ignoring letter case, gets no route candidate: the destination stays as
it was.  And a script that names alias 200 and leaves in `destIP` the Lua string made of
one NUL character, which is not empty, gets no route candidate either. -/
theorem C4_route_candidate_counterexample :
    (finishes (scriptedVM skipNulScript) "s"
        (assignAll (opened (scriptedVM skipNulScript) freshState)
          (routingInputs "10.0.0.1" "100" "" "caller" "100" "id" "ARQ" "" "en"))).map
      (fun g => (g "action", g "destAlias", g "destIP",
        equalsIgnoringCase (textOf (scriptedVM skipNulScript) (g "action")) "SKIP",
        equalsIgnoringCase (textOf (scriptedVM skipNulScript) (g "action")) "REJECT"))
      = some (LuaValue.string "SKIP\x00x", LuaValue.string "200",
          LuaValue.string "10.0.0.2:1720", false, false)
    ∧ (Routing.LuaPolicy.RunPolicy (scriptedVM skipNulScript) plainRoutingHost (some freshState)
        "s" "10.0.0.1" "100" "" "caller" "100" "id" "ARQ" "" "en" emptyDestination).value =
      Outcome.done emptyDestination
    ∧ (finishes (scriptedVM nulIPScript) "s"
        (assignAll (opened (scriptedVM nulIPScript) freshState)
          (routingInputs "10.0.0.1" "100" "" "caller" "100" "id" "ARQ" "" "en"))).map
      (fun g => (textOf (scriptedVM nulIPScript) (g "action"), g "destAlias", g "destIP",
        decide (textOf (scriptedVM nulIPScript) (g "destIP") = "")))
      = some ("", LuaValue.string "200", LuaValue.string "\x00", false)
    ∧ (Routing.LuaPolicy.RunPolicy (scriptedVM nulIPScript) plainRoutingHost (some freshState)
        "s" "10.0.0.1" "100" "" "caller" "100" "id" "ARQ" "" "en" emptyDestination).value =
      Outcome.done { m_routes := [], m_rejectCall := false, m_rejectReason := 0,
                     m_newAliases := some [H323SetAliasAddress "200"] } := by
  refine ⟨by decide, by decide, by decide, by decide⟩

/-- C4, amended: when the script finishes successfully and, each read up to its first NUL
character, `action` is neither "SKIP" nor "REJECT" ignoring letter case and destAlias and
destIP are both non-empty, `RunPolicy` adds exactly one route candidate after those already
there: its destination number is destAlias and its address is made of the host and the
port that `SplitIPAndPort` takes from destIP, the port being 1720 when destIP holds no
colon; destAlias "200" with destIP "10.0.0.2:1720" gives the alias 200 at host "10.0.0.2",
port 1720. -/
theorem C4_route_candidate (vm : LuaVM) (env : RoutingHost) (L0 : lua_State)
    (m_script source calledAlias calledIP caller callingStationId callid messageType
      clientauthid language : String) (destination : DestinationRoutes) (g : Globals)
    (hrun : finishes vm m_script (assignAll (opened vm L0)
        (routingInputs source calledAlias calledIP caller callingStationId callid messageType
          clientauthid language)) = some g)
    (hskip : equalsIgnoringCase (readText vm (g "action")) "SKIP" = false)
    (hreject : equalsIgnoringCase (readText vm (g "action")) "REJECT" = false)
    (halias : readText vm (g "destAlias") ≠ "")
    (hip : readText vm (g "destIP") ≠ "") :
    (Routing.LuaPolicy.RunPolicy vm env (some L0) m_script source calledAlias calledIP caller
        callingStationId callid messageType clientauthid language destination).value =
          Outcome.done
            { m_routes := destination.m_routes ++
                [luaRoute env (readText vm (g "destAlias")) (readText vm (g "destIP"))],
              m_rejectCall := destination.m_rejectCall,
              m_rejectReason := destination.m_rejectReason,
              m_newAliases := some [H323SetAliasAddress (readText vm (g "destAlias"))] }
    ∧ (luaRoute env (readText vm (g "destAlias")) (readText vm (g "destIP"))).m_destNumber =
        readText vm (g "destAlias")
    ∧ (luaRoute env (readText vm (g "destAlias")) (readText vm (g "destIP"))).m_destAddr =
        { ip := env.PIPSocket_Address
            (SplitIPAndPort (readText vm (g "destIP")) GK_DEF_ENDPOINT_SIGNAL_PORT).1,
          port := WORD (AsInteger
            (SplitIPAndPort (readText vm (g "destIP")) GK_DEF_ENDPOINT_SIGNAL_PORT).2) }
    ∧ (':' ∉ (readText vm (g "destIP")).data →
        (luaRoute env (readText vm (g "destAlias")) (readText vm (g "destIP"))).m_destAddr =
          { ip := env.PIPSocket_Address (readText vm (g "destIP")), port := 1720 })
    ∧ (readText vm (g "destAlias") = "200" → readText vm (g "destIP") = "10.0.0.2:1720" →
        (luaRoute env (readText vm (g "destAlias")) (readText vm (g "destIP"))).m_destNumber = "200"
        ∧ (luaRoute env (readText vm (g "destAlias")) (readText vm (g "destIP"))).m_destAddr =
            { ip := env.PIPSocket_Address "10.0.0.2", port := 1720 }) := by
  have h0 : ToUpper (readText vm (g "action")) ≠ "SKIP" := by
    intro h
    have := (ToUpper_eq_iff _ "SKIP" (by decide)).mp h
    rw [hskip] at this
    exact Bool.noConfusion this
  have h1 : ToUpper (readText vm (g "action")) ≠ "REJECT" := by
    intro h
    have := (ToUpper_eq_iff _ "REJECT" (by decide)).mp h
    rw [hreject] at this
    exact Bool.noConfusion this
  refine ⟨?_, rfl, rfl, ?_, ?_⟩
  · rw [RunPolicy_some, hrun]
    simp [Outcome.value, routeDecision, h0, h1, halias, hip, DestinationRoutes.SetNewAliases,
      DestinationRoutes.AddRoute]
  · intro hc
    simp only [luaRoute, SocketToH225TransportAddr, SplitIPAndPort_no_colon _ _ hc]
    have : WORD (AsInteger (toString GK_DEF_ENDPOINT_SIGNAL_PORT)) = 1720 := by decide
    rw [this]
  · intro ha hi
    rw [ha, hi]
    have h2 : SplitIPAndPort "10.0.0.2:1720" GK_DEF_ENDPOINT_SIGNAL_PORT = ("10.0.0.2", "1720") := by
      decide
    have h3 : WORD (AsInteger "1720") = 1720 := by decide
    simp [luaRoute, SocketToH225TransportAddr, h2, h3]

/-- C4 amended, at the input of the specification: destAlias "200", destIP "10.0.0.2:1720" give one
route candidate, alias 200 at 10.0.0.2 port 1720. -/
theorem C4_route_candidate_witness :
    (Routing.LuaPolicy.RunPolicy (scriptedVM routeScript) plainRoutingHost (some freshState)
        "s" "10.0.0.1" "100" "" "caller" "100" "id" "ARQ" "" "en" emptyDestination).value =
      Outcome.done
        { m_routes := [{ m_policy := "Lua", m_destAddr := { ip := [10, 0, 0, 2], port := 1720 },
                         m_destEndpoint := none, m_destNumber := "200" }],
          m_rejectCall := false, m_rejectReason := 0,
          m_newAliases := some [H323SetAliasAddress "200"] } :=
  (C4_route_candidate (scriptedVM routeScript) plainRoutingHost freshState
      "s" "10.0.0.1" "100" "" "caller" "100" "id" "ARQ" "" "en" emptyDestination
      (scriptedGlobals routeScript (assignAll (opened (scriptedVM routeScript) freshState)
        (routingInputs "10.0.0.1" "100" "" "caller" "100" "id" "ARQ" "" "en")).globals)
      rfl (by decide) (by decide) (by decide) (by decide)).1.trans (by decide)

/-- C5, as stated, fails: a script that sets only destAlias ("200") and leaves destIP empty
gets no route candidate; the destination only receives the new alias.  The new alias is
set only for what the host reads up to the first NUL: with destAlias "200" and `action`
the Lua string made of "SKIP", a NUL character and "x", and with destAlias the Lua string
made of one NUL character, the destination stays as it was. -/
theorem C5_alias_only_counterexample :
    (finishes (scriptedVM aliasOnlyScript) "s"
        (assignAll (opened (scriptedVM aliasOnlyScript) freshState)
          (routingInputs "10.0.0.1" "100" "" "caller" "100" "id" "ARQ" "" "en"))).map
      (fun g => (textOf (scriptedVM aliasOnlyScript) (g "action"),
        textOf (scriptedVM aliasOnlyScript) (g "destAlias"),
        textOf (scriptedVM aliasOnlyScript) (g "destIP")))
      = some ("", "200", "")
    ∧ (Routing.LuaPolicy.RunPolicy (scriptedVM aliasOnlyScript) plainRoutingHost
        (some freshState) "s" "10.0.0.1" "100" "" "caller" "100" "id" "ARQ" "" "en"
        emptyDestination).value =
      Outcome.done { m_routes := [], m_rejectCall := false, m_rejectReason := 0,
                     m_newAliases := some [H323SetAliasAddress "200"] }
    ∧ (finishes (scriptedVM skipNulAliasScript) "s"
        (assignAll (opened (scriptedVM skipNulAliasScript) freshState)
          (routingInputs "10.0.0.1" "100" "" "caller" "100" "id" "ARQ" "" "en"))).map
      (fun g => (g "action", g "destAlias", textOf (scriptedVM skipNulAliasScript) (g "destIP"),
        equalsIgnoringCase (textOf (scriptedVM skipNulAliasScript) (g "action")) "SKIP",
        equalsIgnoringCase (textOf (scriptedVM skipNulAliasScript) (g "action")) "REJECT"))
      = some (LuaValue.string "SKIP\x00x", LuaValue.string "200", "", false, false)
    ∧ (Routing.LuaPolicy.RunPolicy (scriptedVM skipNulAliasScript) plainRoutingHost
        (some freshState) "s" "10.0.0.1" "100" "" "caller" "100" "id" "ARQ" "" "en"
        emptyDestination).value = Outcome.done emptyDestination
    ∧ (finishes (scriptedVM nulAliasScript) "s"
        (assignAll (opened (scriptedVM nulAliasScript) freshState)
          (routingInputs "10.0.0.1" "100" "" "caller" "100" "id" "ARQ" "" "en"))).map
      (fun g => (textOf (scriptedVM nulAliasScript) (g "action"), g "destAlias",
        textOf (scriptedVM nulAliasScript) (g "destIP"),
        decide (textOf (scriptedVM nulAliasScript) (g "destAlias") = "")))
      = some ("", LuaValue.string "\x00", "", false)
    ∧ (Routing.LuaPolicy.RunPolicy (scriptedVM nulAliasScript) plainRoutingHost
        (some freshState) "s" "10.0.0.1" "100" "" "caller" "100" "id" "ARQ" "" "en"
        emptyDestination).value = Outcome.done emptyDestination := by
  refine ⟨by decide, by decide, by decide, by decide, by decide, by decide⟩

/-- C5, amended: with `action`, destAlias and destIP each read up to its first NUL
character: when the script finishes successfully and leaves destIP empty, `RunPolicy` adds
no route candidate; if moreover `action` is neither "SKIP" nor "REJECT" ignoring letter
case and destAlias is not empty, it sets the new aliases of the destination to the one
alias destAlias and changes nothing else.  A route candidate is produced only when destIP
is supplied. -/
theorem C5_alias_only (vm : LuaVM) (env : RoutingHost) (L0 : lua_State)
    (m_script source calledAlias calledIP caller callingStationId callid messageType
      clientauthid language : String) (destination : DestinationRoutes) (g : Globals)
    (hrun : finishes vm m_script (assignAll (opened vm L0)
        (routingInputs source calledAlias calledIP caller callingStationId callid messageType
          clientauthid language)) = some g)
    (hip : readText vm (g "destIP") = "") :
    (∀ d : DestinationRoutes,
      (Routing.LuaPolicy.RunPolicy vm env (some L0) m_script source calledAlias calledIP caller
        callingStationId callid messageType clientauthid language destination).value =
          Outcome.done d → d.m_routes = destination.m_routes)
    ∧ (equalsIgnoringCase (readText vm (g "action")) "SKIP" = false →
        equalsIgnoringCase (readText vm (g "action")) "REJECT" = false →
        readText vm (g "destAlias") ≠ "" →
        (Routing.LuaPolicy.RunPolicy vm env (some L0) m_script source calledAlias calledIP
          caller callingStationId callid messageType clientauthid language destination).value =
          Outcome.done
            { m_routes := destination.m_routes, m_rejectCall := destination.m_rejectCall,
              m_rejectReason := destination.m_rejectReason,
              m_newAliases := some [H323SetAliasAddress (readText vm (g "destAlias"))] }) := by
  rw [RunPolicy_some, hrun]
  refine ⟨?_, ?_⟩
  · intro d hd
    simp only [Outcome.value, Outcome.done.injEq] at hd
    rw [← hd]
    simp only [routeDecision, hip, if_true]
    split_ifs <;> rfl
  · intro hskip hreject halias
    have h0 : ToUpper (readText vm (g "action")) ≠ "SKIP" := by
      intro h
      have := (ToUpper_eq_iff _ "SKIP" (by decide)).mp h
      rw [hskip] at this
      exact Bool.noConfusion this
    have h1 : ToUpper (readText vm (g "action")) ≠ "REJECT" := by
      intro h
      have := (ToUpper_eq_iff _ "REJECT" (by decide)).mp h
      rw [hreject] at this
      exact Bool.noConfusion this
    simp [Outcome.value, routeDecision, h0, h1, hip, halias, DestinationRoutes.SetNewAliases]

/-- C5 amended, at a concrete input: a script that sets only destAlias to "200" gets the
new alias and no route candidate. -/
theorem C5_alias_only_witness :
    (Routing.LuaPolicy.RunPolicy (scriptedVM aliasOnlyScript) plainRoutingHost
        (some freshState) "s" "10.0.0.1" "100" "" "caller" "100" "id" "ARQ" "" "en"
        emptyDestination).value =
      Outcome.done { m_routes := [], m_rejectCall := false, m_rejectReason := 0,
                     m_newAliases := some [H323SetAliasAddress "200"] } :=
  (C5_alias_only (scriptedVM aliasOnlyScript) plainRoutingHost freshState
      "s" "10.0.0.1" "100" "" "caller" "100" "id" "ARQ" "" "en" emptyDestination
      (scriptedGlobals aliasOnlyScript (assignAll (opened (scriptedVM aliasOnlyScript) freshState)
        (routingInputs "10.0.0.1" "100" "" "caller" "100" "id" "ARQ" "" "en")).globals)
      rfl (by decide)).2 (by decide) (by decide) (by decide)

/-- C6, as stated, fails: with action "REJECT" and rejectCode "abc" on a destination whose
reject reason was 5, the reason becomes 0 instead of staying 5; and with rejectCode "12abc",
which is not an integer either, the reason of a fresh destination becomes 12.  What counts
as empty is the text up to the first NUL: with rejectCode the Lua string made of one NUL
character, which is not empty, the reason 5 stays. -/
theorem C6_reject_code_counterexample :
    (Routing.LuaPolicy.RunPolicy (scriptedVM rejectAbcScript) plainRoutingHost (some freshState)
        "s" "10.0.0.1" "100" "" "caller" "100" "id" "ARQ" "" "en" reasonFiveDestination).value =
      Outcome.done { m_routes := [], m_rejectCall := true, m_rejectReason := 0,
                     m_newAliases := none }
    ∧ reasonFiveDestination.m_rejectReason = 5
    ∧ (Routing.LuaPolicy.RunPolicy (scriptedVM reject12abcScript) plainRoutingHost
        (some freshState) "s" "10.0.0.1" "100" "" "caller" "100" "id" "ARQ" "" "en"
        emptyDestination).value =
      Outcome.done { m_routes := [], m_rejectCall := true, m_rejectReason := 12,
                     m_newAliases := none }
    ∧ emptyDestination.m_rejectReason = 0
    ∧ (finishes (scriptedVM rejectNulCodeScript) "s"
        (assignAll (opened (scriptedVM rejectNulCodeScript) freshState)
          (routingInputs "10.0.0.1" "100" "" "caller" "100" "id" "ARQ" "" "en"))).map
      (fun g => (g "action", g "rejectCode",
        decide (textOf (scriptedVM rejectNulCodeScript) (g "rejectCode") = "")))
      = some (LuaValue.string "REJECT", LuaValue.string "\x00", false)
    ∧ (Routing.LuaPolicy.RunPolicy (scriptedVM rejectNulCodeScript) plainRoutingHost
        (some freshState) "s" "10.0.0.1" "100" "" "caller" "100" "id" "ARQ" "" "en"
        reasonFiveDestination).value =
      Outcome.done { m_routes := [], m_rejectCall := true, m_rejectReason := 5,
                     m_newAliases := none } := by
  refine ⟨by decide, by decide, by decide, by decide, by decide, by decide⟩

/-- C6, amended: when the script finishes successfully and leaves `action` equal to
"REJECT" ignoring letter case, the call is marked rejected and nothing else changes but the
reject reason: with rejectCode read up to its first NUL character, the reason is left as it
was when rejectCode is empty, and in every other case it is set to the integer `AsInteger`
reads at the start of rejectCode; that integer is 0 for every text that does not start
with an integer (white space and an optional sign, then a digit), such as "abc". -/
theorem C6_reject_code (vm : LuaVM) (env : RoutingHost) (L0 : lua_State)
    (m_script source calledAlias calledIP caller callingStationId callid messageType
      clientauthid language : String) (destination : DestinationRoutes) (g : Globals)
    (hrun : finishes vm m_script (assignAll (opened vm L0)
        (routingInputs source calledAlias calledIP caller callingStationId callid messageType
          clientauthid language)) = some g)
    (haction : equalsIgnoringCase (textOf vm (g "action")) "REJECT" = true) :
    (readText vm (g "rejectCode") = "" →
      (Routing.LuaPolicy.RunPolicy vm env (some L0) m_script source calledAlias calledIP caller
        callingStationId callid messageType clientauthid language destination).value =
          Outcome.done { m_routes := destination.m_routes, m_rejectCall := true,
                         m_rejectReason := destination.m_rejectReason,
                         m_newAliases := destination.m_newAliases })
    ∧ (readText vm (g "rejectCode") ≠ "" →
      (Routing.LuaPolicy.RunPolicy vm env (some L0) m_script source calledAlias calledIP caller
        callingStationId callid messageType clientauthid language destination).value =
          Outcome.done { m_routes := destination.m_routes, m_rejectCall := true,
                         m_rejectReason := AsInteger (readText vm (g "rejectCode")),
                         m_newAliases := destination.m_newAliases })
    ∧ (∀ s : String, startsWithInteger s = false → AsInteger s = 0)
    ∧ startsWithInteger "abc" = false := by
  have h1 : ToUpper (readText vm (g "action")) = "REJECT" := by
    rw [readText_of_equalsIgnoringCase vm _ "REJECT" haction (by decide)]
    exact (ToUpper_eq_iff _ "REJECT" (by decide)).mpr haction
  have h0 : ToUpper (readText vm (g "action")) ≠ "SKIP" := by rw [h1]; decide
  rw [RunPolicy_some, hrun]
  refine ⟨?_, ?_, AsInteger_of_not_startsWithInteger, by decide⟩
  · intro hc
    simp [Outcome.value, routeDecision, h0, h1, hc, DestinationRoutes.SetRejectCall]
  · intro hc
    simp [Outcome.value, routeDecision, h0, h1, hc, DestinationRoutes.SetRejectCall,
      DestinationRoutes.SetRejectReason]

/-- C6 amended, at a concrete input: action "reject" and no rejectCode on a destination
whose reject reason was 5 leaves the reason 5. -/
theorem C6_reject_code_witness :
    (Routing.LuaPolicy.RunPolicy (scriptedVM rejectPlainScript) plainRoutingHost
        (some freshState) "s" "10.0.0.1" "100" "" "caller" "100" "id" "ARQ" "" "en"
        reasonFiveDestination).value =
      Outcome.done { m_routes := [], m_rejectCall := true, m_rejectReason := 5,
                     m_newAliases := none } :=
  (C6_reject_code (scriptedVM rejectPlainScript) plainRoutingHost freshState
      "s" "10.0.0.1" "100" "" "caller" "100" "id" "ARQ" "" "en" reasonFiveDestination
      (scriptedGlobals rejectPlainScript
        (assignAll (opened (scriptedVM rejectPlainScript) freshState)
          (routingInputs "10.0.0.1" "100" "" "caller" "100" "id" "ARQ" "" "en")).globals)
      rfl (by decide)).1 (by decide)

/-- C7: for an event with `(evt & enabled events & supported events) = 0`, both `Log`
overloads return `Next` at once and make no library call: no session is opened and no
script is run, whatever the script, the call, the endpoint and the interpreter are. -/
theorem C7_disabled_event_returns_next (vm : LuaVM) (env : AcctHost) (fresh : Option lua_State)
    (self : LuaAcct) (evt : Int) (call ep : Option Nat)
    (h : Int.land (Int.land evt self.GetEnabledEvents) self.GetSupportedEvents = 0) :
    LuaAcct.Log vm env fresh self evt call =
        Outcome.done (AcctStatus.Next, { lua := none, calls := [] })
    ∧ LuaAcct.LogEp vm env fresh self evt ep =
        Outcome.done (AcctStatus.Next, { lua := none, calls := [] }) := by
  constructor
  · unfold LuaAcct.Log
    rw [if_pos h]
    rfl
  · unfold LuaAcct.LogEp
    rw [if_pos h]
    rfl

/-- C7 at a concrete input: the event Update (4) on a logger enabled for Start and Stop. -/
theorem C7_disabled_event_returns_next_witness :
    Int.land (Int.land 4 sampleLogger.GetEnabledEvents) sampleLogger.GetSupportedEvents = 0
    ∧ LuaAcct.Log (scriptedVM []) sampleAcctHost (some freshState) sampleLogger 4 (some 7) =
        Outcome.done (AcctStatus.Next, { lua := none, calls := [] })
    ∧ LuaAcct.LogEp (scriptedVM []) sampleAcctHost (some freshState) sampleLogger 4 (some 9) =
        Outcome.done (AcctStatus.Next, { lua := none, calls := [] }) :=
  ⟨by decide,
    C7_disabled_event_returns_next (scriptedVM []) sampleAcctHost (some freshState)
      sampleLogger 4 (some 7) (some 9) (by decide)⟩

/-- C8, as stated, fails: a script that leaves in `result` the Lua string made of "next"
and a NUL character, which equals neither "OK" nor "NEXT" ignoring letter case, makes both
`Log` overloads return Next, not Fail: the host reads `result` through a `const char *`,
up to the first NUL. -/
theorem C8_acct_result_mapping_counterexample :
    (finishes (scriptedVM nextNulScript) nulLogger.m_script
        (assignAll (opened (scriptedVM nextNulScript) freshState)
          (acctInputs (LuaAcct.callEventName sampleAcctHost 1)
            (LuaAcct.callParams sampleAcctHost nulLogger 1 (some 7))))).map
      (fun g => (g "result",
        equalsIgnoringCase (textOf (scriptedVM nextNulScript) (g "result")) "OK",
        equalsIgnoringCase (textOf (scriptedVM nextNulScript) (g "result")) "NEXT"))
      = some (LuaValue.string "next\x00", false, false)
    ∧ (LuaAcct.Log (scriptedVM nextNulScript) sampleAcctHost (some freshState) nulLogger 1
        (some 7)).value = Outcome.done AcctStatus.Next
    ∧ (LuaAcct.LogEp (scriptedVM nextNulScript) sampleAcctHost (some freshState) nulLogger 1
        (some 9)).value = Outcome.done AcctStatus.Next := by
  refine ⟨by decide, by decide, by decide⟩

/-- C8, amended: for an enabled event that reaches script execution (script configured,
call or endpoint present, capacity check passed, session opened), each `Log` overload runs
the script on a session in which `result` is "OK", returns Ok exactly when the script
finishes successfully with `result`, read up to its first NUL character, equal to "OK"
ignoring letter case, so also when the script leaves `result` as it was, Next exactly when
it so equals "NEXT", and Fail for every other value and for every compile or runtime
error. -/
theorem C8_acct_result_mapping (vm : LuaVM) (env : AcctHost) (L0 : lua_State) (self : LuaAcct)
    (evt : Int) (call ep : Option Nat)
    (hen : Int.land (Int.land evt self.GetEnabledEvents) self.GetSupportedEvents ≠ 0)
    (hs : self.m_script ≠ "") :
    ((call ≠ none ∨ evt = env.AcctOn ∨ evt = env.AcctOff) →
      vm.lua_checkstack
          (assignAll (opened vm L0) [("event", LuaAcct.callEventName env evt), ("result", "OK")])
          (LuaAcct.callParams env self evt call).length = true →
      AcctContract vm self.m_script
        (assignAll (opened vm L0)
          (acctInputs (LuaAcct.callEventName env evt) (LuaAcct.callParams env self evt call)))
        (LuaAcct.Log vm env (some L0) self evt call).value)
    ∧ (ep ≠ none →
      vm.lua_checkstack
          (assignAll (opened vm L0) [("event", LuaAcct.epEventName env evt), ("result", "OK")])
          (env.SetupAcctEndpointParams ep self.m_timestampFormat).length = true →
      AcctContract vm self.m_script
        (assignAll (opened vm L0)
          (acctInputs (LuaAcct.epEventName env evt)
            (env.SetupAcctEndpointParams ep self.m_timestampFormat)))
        (LuaAcct.LogEp vm env (some L0) self evt ep).value) := by
  constructor
  · intro hc hroom
    rw [Log_some vm env L0 self evt call hen hs hc hroom]
    exact acctContract_of vm self.m_script _ (acctStart_result _ _ _)
  · intro hc hroom
    rw [LogEp_some vm env L0 self evt ep hen hs hc hroom]
    exact acctContract_of vm self.m_script _ (acctStart_result _ _ _)

/-- C8 amended, at a concrete input: the event Start (1) with a call, and with an endpoint, on a
logger enabled for Start whose script sets `result` to "next". -/
theorem C8_acct_result_mapping_witness :
    Int.land (Int.land 1 sampleLogger.GetEnabledEvents) sampleLogger.GetSupportedEvents ≠ 0
    ∧ sampleLogger.m_script ≠ ""
    ∧ AcctContract (scriptedVM [("result", LuaValue.string "next")]) sampleLogger.m_script
        (assignAll (opened (scriptedVM [("result", LuaValue.string "next")]) freshState)
          (acctInputs (LuaAcct.callEventName sampleAcctHost 1)
            (LuaAcct.callParams sampleAcctHost sampleLogger 1 (some 7))))
        (LuaAcct.Log (scriptedVM [("result", LuaValue.string "next")]) sampleAcctHost
          (some freshState) sampleLogger 1 (some 7)).value
    ∧ AcctContract (scriptedVM [("result", LuaValue.string "next")]) sampleLogger.m_script
        (assignAll (opened (scriptedVM [("result", LuaValue.string "next")]) freshState)
          (acctInputs (LuaAcct.epEventName sampleAcctHost 1)
            (sampleAcctHost.SetupAcctEndpointParams (some 9) sampleLogger.m_timestampFormat)))
        (LuaAcct.LogEp (scriptedVM [("result", LuaValue.string "next")]) sampleAcctHost
          (some freshState) sampleLogger 1 (some 9)).value :=
  ⟨by decide, by decide,
    (C8_acct_result_mapping (scriptedVM [("result", LuaValue.string "next")]) sampleAcctHost
      freshState sampleLogger 1 (some 7) (some 9) (by decide) (by decide)).1
        (Or.inl (by simp)) rfl,
    (C8_acct_result_mapping (scriptedVM [("result", LuaValue.string "next")]) sampleAcctHost
      freshState sampleLogger 1 (some 7) (some 9) (by decide) (by decide)).2
        (by simp) rfl⟩

/-- C9, as stated, fails: a script that leaves in `password` the Lua string made of "sec",
a NUL character and "ret" gives true with the password "sec", which is not the final value
of `password`: the host reads it through a `const char *`, up to the first NUL. -/
theorem C9_password_lookup_counterexample :
    (finishes (scriptedVM passwordNulScript) "s"
        (assignAll (opened (scriptedVM passwordNulScript) freshState)
          (passwordInputs "bob" "gk1"))).map
      (fun g => (g "password", textOf (scriptedVM passwordNulScript) (g "password")))
      = some (LuaValue.string "sec\x00ret", "sec\x00ret")
    ∧ (LuaPasswordAuth.GetPassword (scriptedVM passwordNulScript) (some freshState) "s" "gk1"
        "bob" "old").value = Outcome.done (true, "sec")
    ∧ "sec" ≠ "sec\x00ret" := by
  refine ⟨by decide, by decide, by decide⟩

/-- C9, amended: `GetPassword`, when its session opened, returns false and leaves the
caller's password as it was when the script is empty and when the script fails to compile
or to run; it returns true exactly when the non-empty script finished successfully, and
then the caller's password is the text `password` holds at the end, up to its first NUL
character.  The script starts with `password` set to the empty string, and `alias`, `gk`
and `password` are the only variables written. -/
theorem C9_password_lookup (vm : LuaVM) (L0 : lua_State) (m_script gkName alias_ password : String) :
    (m_script = "" →
      (LuaPasswordAuth.GetPassword vm (some L0) m_script gkName alias_ password).value =
        Outcome.done (false, password))
    ∧ (finishes vm m_script (assignAll (opened vm L0) (passwordInputs alias_ gkName)) = none →
      (LuaPasswordAuth.GetPassword vm (some L0) m_script gkName alias_ password).value =
        Outcome.done (false, password))
    ∧ (∀ p, (LuaPasswordAuth.GetPassword vm (some L0) m_script gkName alias_ password).value =
          Outcome.done (true, p) →
        m_script ≠ "" ∧ ∃ g,
          finishes vm m_script (assignAll (opened vm L0) (passwordInputs alias_ gkName)) = some g
          ∧ p = readText vm (g "password"))
    ∧ (∀ g, m_script ≠ "" →
        finishes vm m_script (assignAll (opened vm L0) (passwordInputs alias_ gkName)) = some g →
        (LuaPasswordAuth.GetPassword vm (some L0) m_script gkName alias_ password).value =
          Outcome.done (true, readText vm (g "password")))
    ∧ (assignAll (opened vm L0) (passwordInputs alias_ gkName)).globals "password" =
        LuaValue.string ""
    ∧ (m_script ≠ "" →
        (LuaPasswordAuth.GetPassword vm (some L0) m_script gkName alias_ password).calls =
          [LuaCall.newstate, LuaCall.setglobal "alias" alias_, LuaCall.setglobal "gk" gkName,
            LuaCall.setglobal "password" "", LuaCall.run m_script, LuaCall.close]) := by
  rw [GetPassword_some]
  refine ⟨?_, ?_, ?_, ?_, ?_, ?_⟩
  · intro h; simp [h, Outcome.value]
  · intro h
    by_cases hs : m_script = ""
    · simp [hs, Outcome.value]
    · simp [hs, h, Outcome.value]
  · intro p hp
    by_cases hs : m_script = ""
    · simp [hs, Outcome.value] at hp
    · refine ⟨hs, ?_⟩
      cases hf : finishes vm m_script (assignAll (opened vm L0) (passwordInputs alias_ gkName)) with
      | none => simp [hs, hf, Outcome.value] at hp
      | some g =>
        simp [hs, hf, Outcome.value] at hp
        exact ⟨g, rfl, hp.symm⟩
  · intro g hs hf
    simp [hs, hf, Outcome.value]
  · simp [passwordInputs, assignAll, assign]
  · intro hs
    simp [hs, Outcome.calls, passwordInputs, writes]

/-- C9 amended, at concrete inputs: a script that sets `password` to "secret" gives true and
"secret"; a script that does not compile gives false and leaves the caller's "old". -/
theorem C9_password_lookup_witness :
    (LuaPasswordAuth.GetPassword (scriptedVM [("password", LuaValue.string "secret")])
        (some freshState) "password = 'secret'" "gk1" "bob" "old").value =
      Outcome.done (true, "secret")
    ∧ (LuaPasswordAuth.GetPassword refusingVM (some freshState) "password = " "gk1" "bob"
        "old").value = Outcome.done (false, "old") :=
  ⟨(C9_password_lookup (scriptedVM [("password", LuaValue.string "secret")]) freshState
      "password = 'secret'" "gk1" "bob" "old").2.2.2.1
      (scriptedGlobals [("password", LuaValue.string "secret")]
        (assignAll (opened (scriptedVM [("password", LuaValue.string "secret")]) freshState)
          (passwordInputs "bob" "gk1")).globals) (by decide) rfl,
   (C9_password_lookup refusingVM freshState "password = " "gk1" "bob" "old").2.1 rfl⟩

/-- C10: in every open session, `SetString(name, value)` followed by `GetString(name)`
with no script run in between returns `value` unchanged, and the read leaves the session
exactly as it was: every global, and the stack, keep their values.  `value` is the C text
at the `const char *` that `SetString` receives, which holds no NUL character. -/
theorem C10_string_round_trip (vm : LuaVM) (L : lua_State) (calls : List LuaCall)
    (name value : String) (hvalue : NUL ∉ value.data) :
    LuaBase.SetString { lua := some L, calls := calls } name value =
        Outcome.done { lua := some (assign L name value),
                       calls := calls ++ [LuaCall.setglobal name value] }
    ∧ ∀ calls1 : List LuaCall,
        LuaBase.GetString vm { lua := some (assign L name value), calls := calls1 } name =
          Outcome.done (value, { lua := some (assign L name value), calls := calls1 }) := by
  refine ⟨SetString_some L calls name value, ?_⟩
  intro calls1
  rw [GetString_some]
  simp [assign, readText, textOf, cstr_eq_self value hvalue]

/-- C10 at a concrete input: "FAIL" written to `result` of a fresh session is read back
as "FAIL". -/
theorem C10_string_round_trip_witness :
    LuaBase.SetString { lua := some freshState, calls := [] } "result" "FAIL" =
        Outcome.done { lua := some (assign freshState "result" "FAIL"),
                       calls := [LuaCall.setglobal "result" "FAIL"] }
    ∧ LuaBase.GetString (scriptedVM [])
          { lua := some (assign freshState "result" "FAIL"), calls := [] } "result" =
        Outcome.done ("FAIL", { lua := some (assign freshState "result" "FAIL"), calls := [] }) :=
  ⟨(C10_string_round_trip (scriptedVM []) freshState [] "result" "FAIL" (by decide)).1,
   (C10_string_round_trip (scriptedVM []) freshState [] "result" "FAIL" (by decide)).2 []⟩


/-! ## Lemmas: script files, session release, parameter names -/

theorem readLines_eq (acc : String) (lines : List String) :
    readLines acc lines = acc ++ eachTerminated lines := by
  induction lines generalizing acc with
  | nil => simp [readLines, eachTerminated]
  | cons line rest ih =>
    simp only [readLines, eachTerminated, ih]
    simp [String.append_assoc]

theorem resolveScript_file (cfg : ConfigHost) (section_ key fileKey : String)
    (content : String) (h : FileSourced cfg section_ key fileKey content) :
    resolveScript cfg section_ key fileKey = eachTerminated (fileLines cfg content) := by
  obtain ⟨h1, h2, h3⟩ := h
  unfold resolveScript
  simp [h1, IsEmpty, h2, h3, readLines_eq]

theorem readLinesFrom_append (d r : Bool) (l : List Char) (h : ∀ c ∈ l, c ≠ '\n') :
    ∀ (cur rest : List Char),
      readLinesFrom d r cur (l ++ rest) = readLinesFrom d r (cur ++ l) rest := by
  induction l with
  | nil => intro cur rest; simp
  | cons c cs ih =>
    intro cur rest
    have hc : c ≠ '\n' := h c (List.mem_cons_self _ _)
    have hcs : ∀ x ∈ cs, x ≠ '\n' := fun x hx => h x (List.mem_cons_of_mem _ hx)
    have hstep : readLinesFrom d r cur (c :: (cs ++ rest)) =
        readLinesFrom d r (cur ++ [c]) (cs ++ rest) := by
      simp only [readLinesFrom, if_neg hc]
    rw [List.cons_append, hstep, ih hcs]
    simp

theorem isTextLine_spec (line : String) (h : isTextLine line = true) :
    (∀ c ∈ line.data, c ≠ '\n') ∧ '\r' ∉ line.data ∧ NUL ∉ line.data := by
  simp only [isTextLine, List.all_eq_true, Bool.and_eq_true, bne_iff_ne, ne_eq] at h
  refine ⟨fun c hc => (h c hc).1.1, fun hc => (h _ hc).1.2 rfl, fun hc => (h _ hc).2 rfl⟩

theorem lineText_line (d : Bool) (line : String) (h : isTextLine line = true) :
    lineText d line.data = line := by
  obtain ⟨_, hcr, hnul⟩ := isTextLine_spec line h
  have hlast : line.data.getLast? ≠ some '\r' :=
    fun e => hcr (List.mem_of_getLast?_eq_some e)
  unfold lineText stripCR
  rw [if_neg hlast]
  cases d <;> exact cstr_eq_self line hnul

theorem lineText_line_cr (line : String) (h : isTextLine line = true) :
    lineText true (line.data ++ ['\r']) = line := by
  obtain ⟨_, _, hnul⟩ := isTextLine_spec line h
  unfold lineText stripCR
  rw [if_pos (List.getLast?_concat _), List.dropLast_concat]
  exact cstr_eq_self line hnul

theorem lineText_line_keep (line : String) (h : isTextLine line = true) :
    lineText false (line.data ++ ['\r']) = line ++ "\r" := by
  obtain ⟨_, _, hnul⟩ := isTextLine_spec line h
  have hdata : (line ++ "\r").data = line.data ++ ['\r'] := String.data_append _ _
  have hno : NUL ∉ (line ++ "\r").data := by
    rw [hdata]
    simp only [List.mem_append, List.mem_singleton, not_or]
    exact ⟨hnul, by decide⟩
  have := cstr_eq_self (line ++ "\r") hno
  unfold lineText
  simp only [Bool.false_eq_true, if_false]
  rw [← hdata]
  exact this

theorem readLinesFrom_lf (d r : Bool) (line : String) (h : isTextLine line = true)
    (rest : List Char) :
    readLinesFrom d r [] (line.data ++ "\n".data ++ rest) =
      line :: readLinesFrom d r [] rest := by
  obtain ⟨hlf, _, _⟩ := isTextLine_spec line h
  rw [List.append_assoc, readLinesFrom_append d r line.data hlf]
  show readLinesFrom d r ([] ++ line.data) ('\n' :: rest) = _
  simp only [readLinesFrom, if_true, List.nil_append]
  rw [lineText_line d line h]

theorem readLinesFrom_crlf_drop (r : Bool) (line : String) (h : isTextLine line = true)
    (rest : List Char) :
    readLinesFrom true r [] (line.data ++ "\r\n".data ++ rest) =
      line :: readLinesFrom true r [] rest := by
  obtain ⟨hlf, _, _⟩ := isTextLine_spec line h
  rw [List.append_assoc, readLinesFrom_append true r line.data hlf]
  show readLinesFrom true r ([] ++ line.data) ('\r' :: '\n' :: rest) = _
  have hcr : ('\r' : Char) ≠ '\n' := by decide
  simp only [readLinesFrom, if_neg hcr, if_true, List.nil_append]
  rw [lineText_line_cr line h]

theorem readLinesFrom_crlf_keep (r : Bool) (line : String) (h : isTextLine line = true)
    (rest : List Char) :
    readLinesFrom false r [] (line.data ++ "\r\n".data ++ rest) =
      (line ++ "\r") :: readLinesFrom false r [] rest := by
  obtain ⟨hlf, _, _⟩ := isTextLine_spec line h
  rw [List.append_assoc, readLinesFrom_append false r line.data hlf]
  show readLinesFrom false r ([] ++ line.data) ('\r' :: '\n' :: rest) = _
  have hcr : ('\r' : Char) ≠ '\n' := by decide
  simp only [readLinesFrom, if_neg hcr, if_true, List.nil_append]
  rw [lineText_line_keep line h]

theorem readLinesFrom_nil (d r : Bool) : readLinesFrom d r [] [] = [] := by
  have h : lineText d [] = "" := by cases d <;> rfl
  simp [readLinesFrom, h]

theorem fileLines_textFile_lf (cfg : ConfigHost) :
    ∀ lines : List String, (∀ line ∈ lines, isTextLine line = true) →
      fileLines cfg (textFile "\n" lines) = lines := by
  intro lines
  induction lines with
  | nil => intro _; exact readLinesFrom_nil _ _
  | cons line rest ih =>
    intro h
    have hline := h line (List.mem_cons_self _ _)
    have ih1 := ih fun x hx => h x (List.mem_cons_of_mem _ hx)
    unfold fileLines at ih1 ⊢
    simp only [textFile, String.data_append]
    rw [readLinesFrom_lf _ _ line hline, ih1]

theorem fileLines_textFile_crlf_drop (cfg : ConfigHost) (hcfg : cfg.ReadLine_dropsCR = true) :
    ∀ lines : List String, (∀ line ∈ lines, isTextLine line = true) →
      fileLines cfg (textFile "\r\n" lines) = lines := by
  intro lines
  induction lines with
  | nil => intro _; exact readLinesFrom_nil _ _
  | cons line rest ih =>
    intro h
    have hline := h line (List.mem_cons_self _ _)
    have ih1 := ih fun x hx => h x (List.mem_cons_of_mem _ hx)
    unfold fileLines at ih1 ⊢
    rw [hcfg] at ih1 ⊢
    simp only [textFile, String.data_append]
    rw [readLinesFrom_crlf_drop _ line hline, ih1]

theorem fileLines_textFile_crlf_keep (cfg : ConfigHost) (hcfg : cfg.ReadLine_dropsCR = false) :
    ∀ lines : List String, (∀ line ∈ lines, isTextLine line = true) →
      fileLines cfg (textFile "\r\n" lines) = withCR lines := by
  intro lines
  induction lines with
  | nil => intro _; exact readLinesFrom_nil _ _
  | cons line rest ih =>
    intro h
    have hline := h line (List.mem_cons_self _ _)
    have ih1 := ih fun x hx => h x (List.mem_cons_of_mem _ hx)
    unfold fileLines at ih1 ⊢
    rw [hcfg] at ih1 ⊢
    simp only [textFile, String.data_append]
    rw [readLinesFrom_crlf_keep _ line hline, ih1]
    rfl

theorem fileLines_textFile (cfg : ConfigHost) (ending : String) (lines : List String)
    (htext : ∀ line ∈ lines, isTextLine line = true)
    (hending : ending = "\n" ∨ (ending = "\r\n" ∧ cfg.ReadLine_dropsCR = true)) :
    fileLines cfg (textFile ending lines) = lines := by
  rcases hending with h | ⟨h, hcfg⟩
  · rw [h]; exact fileLines_textFile_lf cfg lines htext
  · rw [h]; exact fileLines_textFile_crlf_drop cfg hcfg lines htext

theorem eachTerminated_eq_joined (lines : List String) (h : lines ≠ []) :
    eachTerminated lines = joinedByNewline lines ++ "\n" := by
  induction lines with
  | nil => exact absurd rfl h
  | cons line rest ih =>
    cases rest with
    | nil => simp [eachTerminated, joinedByNewline]
    | cons l2 r2 =>
      have := ih (by simp)
      simp only [eachTerminated, joinedByNewline] at this ⊢
      rw [this]
      simp [String.append_assoc]

theorem close_not_mem_writes (kvs : List (String × String)) : LuaCall.close ∉ writes kvs := by
  simp [writes]

theorem newstate_not_mem_writes (kvs : List (String × String)) :
    LuaCall.newstate ∉ writes kvs := by
  simp [writes]

theorem releasedOnce_short {α : Type} (a : α) :
    ReleasedOnce (Outcome.done (a,
      ({ lua := none, calls := [LuaCall.newstate, LuaCall.close] } : Host))) :=
  ⟨a, [], rfl, by simp, by simp⟩

theorem releasedOnce_run {α : Type} (a : α) (kvs : List (String × String)) (script : String) :
    ReleasedOnce (Outcome.done (a,
      ({ lua := none,
         calls := [LuaCall.newstate] ++ writes kvs ++ [LuaCall.run script, LuaCall.close] } :
        Host))) := by
  refine ⟨a, writes kvs ++ [LuaCall.run script], ?_, ?_, ?_⟩
  · simp
  · simp [close_not_mem_writes]
  · simp [newstate_not_mem_writes]

theorem releasedOnce_writes {α : Type} (a : α) (kvs : List (String × String)) :
    ReleasedOnce (Outcome.done (a,
      ({ lua := none, calls := [LuaCall.newstate] ++ writes kvs ++ [LuaCall.close] } :
        Host))) := by
  refine ⟨a, writes kvs, ?_, close_not_mem_writes kvs, newstate_not_mem_writes kvs⟩
  simp

theorem Log_released (vm : LuaVM) (env : AcctHost) (L0 : lua_State) (self : LuaAcct) (evt : Int)
    (call : Option Nat)
    (hen : Int.land (Int.land evt self.GetEnabledEvents) self.GetSupportedEvents ≠ 0) :
    ReleasedOnce (LuaAcct.Log vm env (some L0) self evt call) := by
  by_cases hs : self.m_script = ""
  · unfold LuaAcct.Log
    simp only [hen, if_false, InitLua_entry, bind_done, Option.isNone_some, Bool.false_or,
      IsEmpty_iff, hs, if_true, ShutdownLua_some, pure_eq_done]
    exact releasedOnce_short _
  · by_cases hc : call ≠ none ∨ evt = env.AcctOn ∨ evt = env.AcctOff
    · by_cases hroom : vm.lua_checkstack
          (assignAll (opened vm L0) [("event", LuaAcct.callEventName env evt), ("result", "OK")])
          (LuaAcct.callParams env self evt call).length = true
      · rw [Log_some vm env L0 self evt call hen hs hc hroom]
        exact releasedOnce_run _ _ _
      · unfold LuaAcct.Log
        have hguard : (call.isNone && evt != env.AcctOn && evt != env.AcctOff) = false := by
          rcases hc with h | h | h
          · cases call with
            | none => exact absurd rfl h
            | some c => simp
          · simp [h]
          · simp [h]
        simp only [assignAll] at hroom
        simp only [hen, if_false, InitLua_entry, bind_done, Option.isNone_some, Bool.false_or,
          IsEmpty_iff, hs, hguard, Bool.false_eq_true, SetString_some, checkstack_some, hroom,
          Bool.not_false, if_true, ShutdownLua_some, pure_eq_done]
        exact releasedOnce_writes _
          [("event", LuaAcct.callEventName env evt), ("result", "OK")]
    · unfold LuaAcct.Log
      have hguard : (call.isNone && evt != env.AcctOn && evt != env.AcctOff) = true := by
        simp only [not_or, ne_eq, not_not] at hc
        simp [hc.1, hc.2.1, hc.2.2]
      simp only [hen, if_false, InitLua_entry, bind_done, Option.isNone_some, Bool.false_or,
        IsEmpty_iff, hs, hguard, if_true, ShutdownLua_some, pure_eq_done]
      exact releasedOnce_short _

theorem LogEp_released (vm : LuaVM) (env : AcctHost) (L0 : lua_State) (self : LuaAcct)
    (evt : Int) (ep : Option Nat)
    (hen : Int.land (Int.land evt self.GetEnabledEvents) self.GetSupportedEvents ≠ 0) :
    ReleasedOnce (LuaAcct.LogEp vm env (some L0) self evt ep) := by
  by_cases hs : self.m_script = ""
  · unfold LuaAcct.LogEp
    simp only [hen, if_false, InitLua_entry, bind_done, Option.isNone_some, Bool.false_or,
      IsEmpty_iff, hs, if_true, ShutdownLua_some, pure_eq_done]
    exact releasedOnce_short _
  · by_cases hc : ep ≠ none
    · by_cases hroom : vm.lua_checkstack
          (assignAll (opened vm L0) [("event", LuaAcct.epEventName env evt), ("result", "OK")])
          (env.SetupAcctEndpointParams ep self.m_timestampFormat).length = true
      · rw [LogEp_some vm env L0 self evt ep hen hs hc hroom]
        exact releasedOnce_run _ _ _
      · unfold LuaAcct.LogEp
        have hguard : ep.isNone = false := by
          cases ep with
          | none => exact absurd rfl hc
          | some c => rfl
        simp only [assignAll] at hroom
        simp only [hen, if_false, InitLua_entry, bind_done, Option.isNone_some, Bool.false_or,
          IsEmpty_iff, hs, hguard, Bool.false_eq_true, SetString_some, checkstack_some, hroom,
          Bool.not_false, if_true, ShutdownLua_some, pure_eq_done]
        exact releasedOnce_writes _
          [("event", LuaAcct.epEventName env evt), ("result", "OK")]
    · unfold LuaAcct.LogEp
      have hguard : ep.isNone = true := by
        simp only [ne_eq, not_not] at hc
        simp [hc]
      simp only [hen, if_false, InitLua_entry, bind_done, Option.isNone_some, Bool.false_or,
        IsEmpty_iff, hs, hguard, if_true, ShutdownLua_some, pure_eq_done]
      exact releasedOnce_short _

theorem Replace_param (k : String) : Replace ("param_" ++ k) '-' '_' = paramName k := by
  unfold Replace paramName
  have h : ("param_" ++ k).data = "param_".data ++ k.data := String.data_append _ _
  rw [h, List.map_append]
  rfl

theorem paramWrites_eq (params : List (String × String)) :
    paramWrites params = paramAssignments params := by
  simp [paramWrites, paramAssignments, Replace_param]

theorem writes_paramWrites (params : List (String × String)) :
    writes (paramWrites params) = paramCalls params := by
  simp [writes, paramWrites, paramCalls, Replace_param]

theorem paramName_shape (k : String) :
    (paramName k).data.take 6 = ['p', 'a', 'r', 'a', 'm', '_']
    ∧ (paramName k).data.drop 6 = k.data.map (fun c => if c = '-' then '_' else c)
    ∧ '-' ∉ (paramName k).data := by
  refine ⟨rfl, rfl, ?_⟩
  unfold paramName
  simp only [List.mem_append, List.mem_map, not_or, not_exists, not_and]
  constructor
  · decide
  · intro c _ h
    by_cases hc : c = '-'
    · rw [if_pos hc] at h
      exact absurd h (by decide)
    · rw [if_neg hc] at h
      exact hc h


/-! ## The claims, continued -/

/-- C11, as stated, fails: in a session where `result` holds the number 5, as after the
script statement `result = 5`, `GetString` returns "5", not the empty string. -/
theorem C11_get_string_number_counterexample :
    mixedState.globals "result" = LuaValue.integer luaFive
    ∧ luaFive.val = 5
    ∧ (LuaBase.GetString (scriptedVM []) { lua := some mixedState, calls := [] } "result").value =
        Outcome.done "5"
    ∧ "5" ≠ "" := by
  refine ⟨by decide, by decide, by decide, by decide⟩

/-- C11, amended: in every open session and for every name, `GetString` returns without an
error and leaves the session as it was; it returns the empty string when the variable is
absent (nil) and when it holds a boolean, a function or a table, and when the variable
holds a number it returns the text of that number: the decimal text of an integer, and for
a float the text the Lua library prints for it (read as C text). -/
theorem C11_get_string_non_string (vm : LuaVM) (L : lua_State) (calls : List LuaCall)
    (name : String) :
    (L.globals name = LuaValue.nil →
      LuaBase.GetString vm { lua := some L, calls := calls } name =
        Outcome.done ("", { lua := some L, calls := calls }))
    ∧ (∀ b, L.globals name = LuaValue.boolean b →
      LuaBase.GetString vm { lua := some L, calls := calls } name =
        Outcome.done ("", { lua := some L, calls := calls }))
    ∧ (∀ chunk, L.globals name = LuaValue.function chunk →
      LuaBase.GetString vm { lua := some L, calls := calls } name =
        Outcome.done ("", { lua := some L, calls := calls }))
    ∧ (L.globals name = LuaValue.table →
      LuaBase.GetString vm { lua := some L, calls := calls } name =
        Outcome.done ("", { lua := some L, calls := calls }))
    ∧ (∀ i : lua_Integer, L.globals name = LuaValue.integer i →
      LuaBase.GetString vm { lua := some L, calls := calls } name =
        Outcome.done (toString i.val, { lua := some L, calls := calls }))
    ∧ (∀ x : lua_Number, L.globals name = LuaValue.float x →
      LuaBase.GetString vm { lua := some L, calls := calls } name =
        Outcome.done (cstr (vm.lua_number2str x), { lua := some L, calls := calls })) := by
  rw [GetString_some]
  refine ⟨?_, ?_, ?_, ?_, ?_, ?_⟩
  · intro h; rw [h]; rfl
  · intro b h; rw [h]; rfl
  · intro c h; rw [h]; rfl
  · intro h; rw [h]; rfl
  · intro i h
    rw [h]
    show Outcome.done (cstr (toString i.val), _) = _
    rw [cstr_eq_self _ (toString_no_NUL i.val)]
  · intro x h; rw [h]; rfl

/-- C11 amended, at a concrete session: a never-set name, a boolean and a table read as the
empty string, the integer 5 reads as "5", and a float reads as the text the interpreter
prints for it. -/
theorem C11_get_string_non_string_witness :
    LuaBase.GetString (scriptedVM []) { lua := some mixedState, calls := [] } "absent" =
        Outcome.done ("", { lua := some mixedState, calls := [] })
    ∧ LuaBase.GetString (scriptedVM []) { lua := some mixedState, calls := [] } "flag" =
        Outcome.done ("", { lua := some mixedState, calls := [] })
    ∧ LuaBase.GetString (scriptedVM []) { lua := some mixedState, calls := [] } "t" =
        Outcome.done ("", { lua := some mixedState, calls := [] })
    ∧ LuaBase.GetString (scriptedVM []) { lua := some mixedState, calls := [] } "result" =
        Outcome.done ("5", { lua := some mixedState, calls := [] })
    ∧ LuaBase.GetString (scriptedVM []) { lua := some mixedState, calls := [] } "ratio" =
        Outcome.done ("0.5", { lua := some mixedState, calls := [] }) :=
  ⟨(C11_get_string_non_string (scriptedVM []) mixedState [] "absent").1 (by decide),
   (C11_get_string_non_string (scriptedVM []) mixedState [] "flag").2.1 true (by decide),
   (C11_get_string_non_string (scriptedVM []) mixedState [] "t").2.2.2.1 (by decide),
   (C11_get_string_non_string (scriptedVM []) mixedState [] "result").2.2.2.2.1 luaFive
      (by decide),
   (C11_get_string_non_string (scriptedVM []) mixedState [] "ratio").2.2.2.2.2
      4602678819172646912 (by decide)⟩

/-- C12, as stated, fails.  For the file "a\nb\n", whose lines are "a" and "b", the
routing policy resolves the script "a\nb\n", with a "\n" after the last line, not the
lines joined by newline, "a\nb".  And on a host whose `ReadLine` keeps the carriage
return, the same lines ended by CRLF give another script than ended by LF:
"a\r\nb\r\n". -/
theorem C12_file_script_counterexample :
    FileSourced (fileConfig "a\nb\n") "Routing::Lua" "Script" "ScriptFile" "a\nb\n"
    ∧ "a\nb\n" = textFile "\n" ["a", "b"]
    ∧ (Routing.LuaPolicy.LoadConfig (fileConfig "a\nb\n") Routing.LuaPolicy.new).m_script =
        "a\nb\n"
    ∧ joinedByNewline ["a", "b"] = "a\nb"
    ∧ "a\nb\n" ≠ "a\nb"
    ∧ "a\r\nb\r\n" = textFile "\r\n" ["a", "b"]
    ∧ (Routing.LuaPolicy.LoadConfig (plainFileConfig "a\r\nb\r\n")
        Routing.LuaPolicy.new).m_script = "a\r\nb\r\n"
    ∧ (Routing.LuaPolicy.LoadConfig (plainFileConfig "a\nb\n")
        Routing.LuaPolicy.new).m_script = "a\nb\n"
    ∧ "a\r\nb\r\n" ≠ "a\nb\n" := by
  refine ⟨⟨by decide, by decide, by decide⟩, by decide, by decide, by decide, by decide,
    by decide, by decide, by decide, by decide⟩

/-- C12, amended: for every text file, given by its lines (texts without line feed,
carriage return and NUL) and its line ending, the script resolved at each of the five
file-reading sites (routing, registration authentication, call authentication, password
authentication, accounting) from a script file setting that names the file is made of the
file's lines, each followed by one "\n": the lines joined by newline with one more "\n"
after the last line, and the empty text for a file without lines.  This holds for the
ending LF on every host, and for the ending CRLF on a host whose `ReadLine` drops the
carriage return, where the script is therefore the same for both endings; on a host whose
`ReadLine` keeps the carriage return, every line of a CRLF file is read with its "\r". -/
theorem C12_file_script (cfg : ConfigHost) (env : AcctHost) (enabledEvents : Int)
    (lines : List String) (ending : String)
    (htext : ∀ line ∈ lines, isTextLine line = true)
    (hending : ending = "\n" ∨ (ending = "\r\n" ∧ cfg.ReadLine_dropsCR = true)) :
    (FileSourced cfg "Routing::Lua" "Script" "ScriptFile" (textFile ending lines) →
      (Routing.LuaPolicy.LoadConfig cfg Routing.LuaPolicy.new).m_script = eachTerminated lines)
    ∧ (FileSourced cfg "LuaAuth" "RegistrationScript" "RegistrationScriptFile"
          (textFile ending lines) →
      (LuaAuth.new cfg).m_registrationScript = eachTerminated lines)
    ∧ (FileSourced cfg "LuaAuth" "CallScript" "CallScriptFile" (textFile ending lines) →
      (LuaAuth.new cfg).m_callScript = eachTerminated lines)
    ∧ (FileSourced cfg "LuaPasswordAuth" "Script" "ScriptFile" (textFile ending lines) →
      (LuaPasswordAuth.new cfg).m_script = eachTerminated lines)
    ∧ (FileSourced cfg "LuaAcct" "Script" "ScriptFile" (textFile ending lines) →
      (LuaAcct.new cfg env enabledEvents).m_script = eachTerminated lines)
    ∧ (lines ≠ [] → eachTerminated lines = joinedByNewline lines ++ "\n")
    ∧ (lines = [] → eachTerminated lines = "")
    ∧ (cfg.ReadLine_dropsCR = false →
        fileLines cfg (textFile "\r\n" lines) = withCR lines) := by
  have hlines := fileLines_textFile cfg ending lines htext hending
  refine ⟨?_, ?_, ?_, ?_, ?_, eachTerminated_eq_joined lines, ?_,
    fun hcfg => fileLines_textFile_crlf_keep cfg hcfg lines htext⟩
  · intro h
    have := resolveScript_file cfg _ _ _ _ h
    rw [hlines] at this
    unfold Routing.LuaPolicy.LoadConfig
    simp only [Routing.LuaPolicy.new] at this ⊢
    rw [this]
    split_ifs <;> rfl
  · intro h; rw [← hlines]; exact resolveScript_file cfg _ _ _ _ h
  · intro h; rw [← hlines]; exact resolveScript_file cfg _ _ _ _ h
  · intro h; rw [← hlines]; exact resolveScript_file cfg _ _ _ _ h
  · intro h; rw [← hlines]; exact resolveScript_file cfg _ _ _ _ h
  · intro h; rw [h]; rfl

/-- C12 amended, at a concrete configuration: on a host whose `ReadLine` drops the carriage
return, every site reads the CRLF file "a\r\nb\r\n", whose lines are "a" and "b", and
resolves "a\nb\n", as for the LF file. -/
theorem C12_file_script_witness :
    (Routing.LuaPolicy.LoadConfig (fileConfig "a\r\nb\r\n") Routing.LuaPolicy.new).m_script =
      "a\nb\n"
    ∧ (LuaAuth.new (fileConfig "a\r\nb\r\n")).m_registrationScript = "a\nb\n"
    ∧ (LuaAuth.new (fileConfig "a\r\nb\r\n")).m_callScript = "a\nb\n"
    ∧ (LuaPasswordAuth.new (fileConfig "a\r\nb\r\n")).m_script = "a\nb\n"
    ∧ (LuaAcct.new (fileConfig "a\r\nb\r\n") sampleAcctHost 3).m_script = "a\nb\n" :=
  ⟨(C12_file_script (fileConfig "a\r\nb\r\n") sampleAcctHost 3 ["a", "b"] "\r\n"
      (by decide) (Or.inr ⟨rfl, rfl⟩)).1 ⟨by decide, by decide, by decide⟩,
   (C12_file_script (fileConfig "a\r\nb\r\n") sampleAcctHost 3 ["a", "b"] "\r\n"
      (by decide) (Or.inr ⟨rfl, rfl⟩)).2.1 ⟨by decide, by decide, by decide⟩,
   (C12_file_script (fileConfig "a\r\nb\r\n") sampleAcctHost 3 ["a", "b"] "\r\n"
      (by decide) (Or.inr ⟨rfl, rfl⟩)).2.2.1 ⟨by decide, by decide, by decide⟩,
   (C12_file_script (fileConfig "a\r\nb\r\n") sampleAcctHost 3 ["a", "b"] "\r\n"
      (by decide) (Or.inr ⟨rfl, rfl⟩)).2.2.2.1 ⟨by decide, by decide, by decide⟩,
   (C12_file_script (fileConfig "a\r\nb\r\n") sampleAcctHost 3 ["a", "b"] "\r\n"
      (by decide) (Or.inr ⟨rfl, rfl⟩)).2.2.2.2.1 ⟨by decide, by decide, by decide⟩⟩

/-- C13: the code at the failing input.  When `luaL_newstate()` returns NULL, none of the
entry points surfaces a failure result: `InitLua` passes the NULL handle on to
`luaL_openlibs` and faults, and a `SetString` on a NULL handle faults as well; so
`RunPolicy`, `doRegistrationCheck`, `doCallCheck` and `GetPassword` fault, and so does
each `Log` overload for an event that passes its mask test. -/
theorem C13_open_failure_faults (vm : LuaVM) (env : RoutingHost) (aenv : AcctHost)
    (self : LuaAcct) (evt : Int) (call ep : Option Nat) (destination : DestinationRoutes)
    (m_script source calledAlias calledIP caller callingStationId callid messageType
      clientauthid language : String)
    (username callerIP aliases vendor message srcinfo gkName alias_ password : String) :
    LuaBase.InitLua vm none Host.entry = Outcome.fault
    ∧ LuaBase.SetString { lua := none, calls := [] } "source" source = Outcome.fault
    ∧ Routing.LuaPolicy.RunPolicy vm env none m_script source calledAlias calledIP caller
        callingStationId callid messageType clientauthid language destination = Outcome.fault
    ∧ LuaAuth.doRegistrationCheck vm none m_script username callingStationId callerIP aliases
        vendor messageType message = Outcome.fault
    ∧ LuaAuth.doCallCheck vm none m_script messageType message source calledAlias calledIP
        caller callingStationId callid srcinfo vendor = Outcome.fault
    ∧ LuaPasswordAuth.GetPassword vm none m_script gkName alias_ password = Outcome.fault
    ∧ LuaAcct.Log vm aenv none self evt call =
        (if Int.land (Int.land evt self.GetEnabledEvents) self.GetSupportedEvents = 0
          then Outcome.done (AcctStatus.Next, { lua := none, calls := [] })
          else Outcome.fault)
    ∧ LuaAcct.LogEp vm aenv none self evt ep =
        (if Int.land (Int.land evt self.GetEnabledEvents) self.GetSupportedEvents = 0
          then Outcome.done (AcctStatus.Next, { lua := none, calls := [] })
          else Outcome.fault) := by
  refine ⟨rfl, rfl, rfl, rfl, rfl, rfl, ?_, ?_⟩
  · unfold LuaAcct.Log
    by_cases h : Int.land (Int.land evt self.GetEnabledEvents) self.GetSupportedEvents = 0
    · rw [if_pos h, if_pos h]; rfl
    · rw [if_neg h, if_neg h]; rfl
  · unfold LuaAcct.LogEp
    by_cases h : Int.land (Int.land evt self.GetEnabledEvents) self.GetSupportedEvents = 0
    · rw [if_pos h, if_pos h]; rfl
    · rw [if_neg h, if_neg h]; rfl

/-- C15: in each entry point whose `InitLua` succeeded, on every return path, the session is
closed exactly once before the return: the function returns with its handle NULL, and its
record of library calls is one `newstate` first, one `close` last and neither in between.
This covers the early returns for an empty script, for missing call or endpoint info, for
a failed capacity check and for a failed script run; for the `Log` overloads it applies
when the event passes the mask test, before which no session is opened. -/
theorem C15_session_released_once (vm : LuaVM) (env : RoutingHost) (aenv : AcctHost)
    (L0 : lua_State) (self : LuaAcct) (evt : Int) (call ep : Option Nat)
    (destination : DestinationRoutes)
    (m_script source calledAlias calledIP caller callingStationId callid messageType
      clientauthid language : String)
    (username callerIP aliases vendor message srcinfo gkName alias_ password : String) :
    ReleasedOnce (Routing.LuaPolicy.RunPolicy vm env (some L0) m_script source calledAlias
        calledIP caller callingStationId callid messageType clientauthid language destination)
    ∧ ReleasedOnce (LuaAuth.doRegistrationCheck vm (some L0) m_script username callingStationId
        callerIP aliases vendor messageType message)
    ∧ ReleasedOnce (LuaAuth.doCallCheck vm (some L0) m_script messageType message source
        calledAlias calledIP caller callingStationId callid srcinfo vendor)
    ∧ ReleasedOnce (LuaPasswordAuth.GetPassword vm (some L0) m_script gkName alias_ password)
    ∧ (Int.land (Int.land evt self.GetEnabledEvents) self.GetSupportedEvents ≠ 0 →
        ReleasedOnce (LuaAcct.Log vm aenv (some L0) self evt call))
    ∧ (Int.land (Int.land evt self.GetEnabledEvents) self.GetSupportedEvents ≠ 0 →
        ReleasedOnce (LuaAcct.LogEp vm aenv (some L0) self evt ep)) := by
  refine ⟨?_, ?_, ?_, ?_, Log_released vm aenv L0 self evt call,
    LogEp_released vm aenv L0 self evt ep⟩
  · rw [RunPolicy_some]
    exact releasedOnce_run _ _ _
  · rw [doRegistrationCheck_some]
    split_ifs
    · exact releasedOnce_short _
    · exact releasedOnce_run _ _ _
  · rw [doCallCheck_some]
    split_ifs
    · exact releasedOnce_short _
    · exact releasedOnce_run _ _ _
  · rw [GetPassword_some]
    split_ifs
    · exact releasedOnce_short _
    · exact releasedOnce_run _ _ _

/-- C15 at concrete inputs, on two early returns: the event Start with no call info, and an
endpoint event on a logger whose script is empty. -/
theorem C15_session_released_once_witness :
    ReleasedOnce (LuaAcct.Log (scriptedVM []) sampleAcctHost (some freshState) sampleLogger 1
        none)
    ∧ ReleasedOnce (LuaAcct.LogEp (scriptedVM []) sampleAcctHost (some freshState)
        sampleLogger 1 (some 9)) :=
  ⟨(C15_session_released_once (scriptedVM []) plainRoutingHost sampleAcctHost freshState
      sampleLogger 1 none (some 9) emptyDestination "s" "" "" "" "" "" "" "" "" "" "" "" "" ""
      "" "" "" "" "").2.2.2.2.1 (by decide),
   (C15_session_released_once (scriptedVM []) plainRoutingHost sampleAcctHost freshState
      sampleLogger 1 none (some 9) emptyDestination "s" "" "" "" "" "" "" "" "" "" "" "" "" ""
      "" "" "" "" "").2.2.2.2.2 (by decide)⟩

/-- C16, as stated, fails: a script that names no destination and leaves in `action` the
Lua string made of "REJECT" and a NUL character, which equals neither "SKIP" nor "REJECT"
ignoring letter case, gets the call rejected: the host reads `action` through a
`const char *`, up to the first NUL. -/
theorem C16_no_action_counterexample :
    (finishes (scriptedVM rejectNulScript) "s"
        (assignAll (opened (scriptedVM rejectNulScript) freshState)
          (routingInputs "10.0.0.1" "100" "" "caller" "100" "id" "ARQ" "" "en"))).map
      (fun g => (g "action",
        equalsIgnoringCase (textOf (scriptedVM rejectNulScript) (g "action")) "SKIP",
        equalsIgnoringCase (textOf (scriptedVM rejectNulScript) (g "action")) "REJECT",
        textOf (scriptedVM rejectNulScript) (g "destAlias"),
        textOf (scriptedVM rejectNulScript) (g "destIP")))
      = some (LuaValue.string "REJECT\x00", false, false, "", "")
    ∧ (Routing.LuaPolicy.RunPolicy (scriptedVM rejectNulScript) plainRoutingHost
        (some freshState) "s" "10.0.0.1" "100" "" "caller" "100" "id" "ARQ" "" "en"
        emptyDestination).value =
      Outcome.done { m_routes := [], m_rejectCall := true, m_rejectReason := 0,
                     m_newAliases := none }
    ∧ emptyDestination.m_rejectCall = false := by
  refine ⟨by decide, by decide, by decide⟩

/-- C16, amended: `RunPolicy` returns the destination exactly as it received it when the
script fails to compile or to run, and when the script finishes successfully with
destAlias and destIP both empty and `action`, read up to its first NUL character, neither
"SKIP" nor "REJECT" ignoring letter case. -/
theorem C16_no_action (vm : LuaVM) (env : RoutingHost) (L0 : lua_State)
    (m_script source calledAlias calledIP caller callingStationId callid messageType
      clientauthid language : String) (destination : DestinationRoutes) :
    (finishes vm m_script (assignAll (opened vm L0)
        (routingInputs source calledAlias calledIP caller callingStationId callid messageType
          clientauthid language)) = none →
      (Routing.LuaPolicy.RunPolicy vm env (some L0) m_script source calledAlias calledIP caller
        callingStationId callid messageType clientauthid language destination).value =
          Outcome.done destination)
    ∧ (∀ g : Globals,
        finishes vm m_script (assignAll (opened vm L0)
          (routingInputs source calledAlias calledIP caller callingStationId callid messageType
            clientauthid language)) = some g →
        equalsIgnoringCase (readText vm (g "action")) "SKIP" = false →
        equalsIgnoringCase (readText vm (g "action")) "REJECT" = false →
        textOf vm (g "destAlias") = "" →
        textOf vm (g "destIP") = "" →
        (Routing.LuaPolicy.RunPolicy vm env (some L0) m_script source calledAlias calledIP
          caller callingStationId callid messageType clientauthid language destination).value =
            Outcome.done destination) := by
  rw [RunPolicy_some]
  constructor
  · intro h
    rw [h]
    rfl
  · intro g hrun hskip hreject halias hip
    have halias1 : readText vm (g "destAlias") = "" := cstr_empty_of_empty _ halias
    have hip1 : readText vm (g "destIP") = "" := cstr_empty_of_empty _ hip
    have h0 : ToUpper (readText vm (g "action")) ≠ "SKIP" := by
      intro h
      have := (ToUpper_eq_iff _ "SKIP" (by decide)).mp h
      rw [hskip] at this
      exact Bool.noConfusion this
    have h1 : ToUpper (readText vm (g "action")) ≠ "REJECT" := by
      intro h
      have := (ToUpper_eq_iff _ "REJECT" (by decide)).mp h
      rw [hreject] at this
      exact Bool.noConfusion this
    rw [hrun]
    simp [Outcome.value, routeDecision, h0, h1, halias1, hip1]

/-- C16 amended, at concrete inputs: a script that does not compile, and a script that sets `action`
to the unrecognised value "later" and names no destination, on a destination that already
carries the reject reason 5. -/
theorem C16_no_action_witness :
    (Routing.LuaPolicy.RunPolicy refusingVM plainRoutingHost (some freshState) "action = "
        "10.0.0.1" "100" "" "caller" "100" "id" "ARQ" "" "en" reasonFiveDestination).value =
      Outcome.done reasonFiveDestination
    ∧ (Routing.LuaPolicy.RunPolicy (scriptedVM [("action", LuaValue.string "later")])
        plainRoutingHost (some freshState) "action = 'later'"
        "10.0.0.1" "100" "" "caller" "100" "id" "ARQ" "" "en" reasonFiveDestination).value =
      Outcome.done reasonFiveDestination :=
  ⟨(C16_no_action refusingVM plainRoutingHost freshState "action = "
      "10.0.0.1" "100" "" "caller" "100" "id" "ARQ" "" "en" reasonFiveDestination).1 rfl,
   (C16_no_action (scriptedVM [("action", LuaValue.string "later")]) plainRoutingHost
      freshState "action = 'later'" "10.0.0.1" "100" "" "caller" "100" "id" "ARQ" "" "en"
      reasonFiveDestination).2
      (scriptedGlobals [("action", LuaValue.string "later")]
        (assignAll (opened (scriptedVM [("action", LuaValue.string "later")]) freshState)
          (routingInputs "10.0.0.1" "100" "" "caller" "100" "id" "ARQ" "" "en")).globals)
      rfl (by decide) (by decide) (by decide) (by decide)⟩

/-- C17: the parameter loop of both `Log` overloads makes, for every open session and every
parameter mapping, exactly one write per entry of the mapping, in order: the value of the
key k goes to the variable named "param_" followed by k with every '-' replaced by '_'
and every other character kept; that name starts with "param_" and holds no '-'.  In each
`Log` overload that reaches the loop these are the writes made between the write of
`result` and the run of the script. -/
theorem C17_param_names (vm : LuaVM) (env : AcctHost) (L0 L : lua_State) (self : LuaAcct)
    (evt : Int) (call ep : Option Nat) (calls : List LuaCall) (params : List (String × String)) :
    LuaAcct.writeParams { lua := some L, calls := calls } params =
        Outcome.done { lua := some (assignAll L (paramAssignments params)),
                       calls := calls ++ paramCalls params }
    ∧ (paramCalls params).length = params.length
    ∧ (∀ kv ∈ params, LuaCall.setglobal (paramName kv.1) kv.2 ∈ paramCalls params)
    ∧ (∀ k : String,
        (paramName k).data.take 6 = ['p', 'a', 'r', 'a', 'm', '_']
        ∧ (paramName k).data.drop 6 = k.data.map (fun c => if c = '-' then '_' else c)
        ∧ '-' ∉ (paramName k).data)
    ∧ (Int.land (Int.land evt self.GetEnabledEvents) self.GetSupportedEvents ≠ 0 →
        self.m_script ≠ "" →
        (call ≠ none ∨ evt = env.AcctOn ∨ evt = env.AcctOff) →
        vm.lua_checkstack
          (assignAll (opened vm L0) [("event", LuaAcct.callEventName env evt), ("result", "OK")])
          (LuaAcct.callParams env self evt call).length = true →
        (LuaAcct.Log vm env (some L0) self evt call).calls =
          [LuaCall.newstate, LuaCall.setglobal "event" (LuaAcct.callEventName env evt),
            LuaCall.setglobal "result" "OK"]
          ++ paramCalls (LuaAcct.callParams env self evt call)
          ++ [LuaCall.run self.m_script, LuaCall.close])
    ∧ (Int.land (Int.land evt self.GetEnabledEvents) self.GetSupportedEvents ≠ 0 →
        self.m_script ≠ "" →
        ep ≠ none →
        vm.lua_checkstack
          (assignAll (opened vm L0) [("event", LuaAcct.epEventName env evt), ("result", "OK")])
          (env.SetupAcctEndpointParams ep self.m_timestampFormat).length = true →
        (LuaAcct.LogEp vm env (some L0) self evt ep).calls =
          [LuaCall.newstate, LuaCall.setglobal "event" (LuaAcct.epEventName env evt),
            LuaCall.setglobal "result" "OK"]
          ++ paramCalls (env.SetupAcctEndpointParams ep self.m_timestampFormat)
          ++ [LuaCall.run self.m_script, LuaCall.close]) := by
  refine ⟨?_, ?_, ?_, paramName_shape, ?_, ?_⟩
  · rw [writeParams_some, writes_paramWrites, paramWrites_eq]
  · simp [paramCalls]
  · intro kv hkv
    exact List.mem_map.mpr ⟨kv, hkv, rfl⟩
  · intro hen hs hc hroom
    rw [Log_some vm env L0 self evt call hen hs hc hroom]
    simp [Outcome.calls, acctInputs, writes, ← writes_paramWrites]
  · intro hen hs hc hroom
    rw [LogEp_some vm env L0 self evt ep hen hs hc hroom]
    simp [Outcome.calls, acctInputs, writes, ← writes_paramWrites]

/-- C17 at a concrete input: the event Start with a call, whose mapping has the keys
"call-id" and "g": the writes go to `param_call_id` and `param_g`. -/
theorem C17_param_names_witness :
    (LuaAcct.Log (scriptedVM []) sampleAcctHost (some freshState) sampleLogger 1
        (some 7)).calls =
      [LuaCall.newstate, LuaCall.setglobal "event" "Start", LuaCall.setglobal "result" "OK",
        LuaCall.setglobal "param_call_id" "c1", LuaCall.setglobal "param_g" "gk1",
        LuaCall.run "result = 'next'", LuaCall.close] :=
  ((C17_param_names (scriptedVM []) sampleAcctHost freshState freshState sampleLogger 1
      (some 7) (some 9) [] []).2.2.2.2.1 (by decide) (by decide) (Or.inl (by simp)) rfl).trans
    (by decide)


end GnuGk
